import Mathlib

/-!
Verification of the AURA customer-support orchestrator (Python backend).

Shallow embedding of the repository files `backend/session_manager.py`,
`backend/order_lookup.py`, `backend/agents.py` and `backend/orchestrator.py`.
Python dicts with a fixed key set become structures, `None` becomes
`Option.none`, Python truthiness on slot values (`None` and `""` are falsy)
becomes `truthy`, exceptions become an explicit exception monad `PyM`, and the
generative collaborators (Vertex AI model, RAG search, SMTP notifications)
become oracle parameters, since they are external to the repository.
String operations are modelled at ASCII granularity, which covers every
string the repository manipulates.
-/

namespace Aura

/-- Python whitespace characters stripped by `str.strip()` (ASCII fragment). -/
def isPySpace (c : Char) : Bool :=
  c = ' ' || c = '\t' || c = '\n' || c = '\r' || c = '\x0b' || c = '\x0c'

/-- Model of Python `str.strip()` on a character list. -/
def stripChars (l : List Char) : List Char :=
  ((l.dropWhile isPySpace).reverse.dropWhile isPySpace).reverse

/-- Model of Python `str.strip()`. -/
def pyStrip (s : String) : String := String.mk (stripChars s.toList)

/-- ASCII lower-casing of one character, as Python `str.lower()` does on ASCII. -/
def lowChar (c : Char) : Char :=
  if 'A' ≤ c && c ≤ 'Z' then Char.ofNat (c.toNat + 32) else c

/-- Model of Python `str.lower()` (ASCII fragment). -/
def pyLower (s : String) : String := String.mk (s.toList.map lowChar)

/-- ASCII upper-casing of one character, as Python `str.upper()` does on ASCII. -/
def upChar (c : Char) : Char :=
  if 'a' ≤ c && c ≤ 'z' then Char.ofNat (c.toNat - 32) else c

/-- Model of Python `str.upper()` (ASCII fragment). -/
def pyUpper (s : String) : String := String.mk (s.toList.map upChar)

/-- Model of Python `s.endswith("?")`: the last character is a question mark. -/
def endsQ (s : String) : Bool := s.toList.getLast? = some '?'

/-- Boolean list-prefix test (used to model Python substring containment). -/
def pfxOf : List Char → List Char → Bool
  | [], _ => true
  | _ :: _, [] => false
  | a :: s, b :: t => a = b && pfxOf s t

/-- `isSub n h`: `n` occurs as a contiguous run inside `h`.  Models the Python
`in` operator on strings. -/
def isSub (n : List Char) : List Char → Bool
  | [] => n.isEmpty
  | c :: t => pfxOf n (c :: t) || isSub n t

/-- Model of Python `needle in hay` for strings. -/
def strIn (needle hay : String) : Bool := isSub needle.toList hay.toList

/-- Model of Python slicing `s[:n]`. -/
def pyTake (n : Nat) (s : String) : String := String.mk (s.toList.take n)

/-- Python truthiness of a nullable string slot: `None` and `""` are falsy. -/
def truthy : Option String → Bool
  | none => false
  | some s => s ≠ ""

/-- Rendering of a nullable value inside a Python f-string: `None` prints as
`"None"`. -/
def renderOpt : Option String → String
  | none => "None"
  | some s => s

/-- Reversed decimal digits of `n`, with explicit fuel so the kernel can
evaluate it.  Models Python decimal rendering of a non-negative int. -/
def revDecDigits : Nat → Nat → List Char
  | 0, _ => []
  | fuel + 1, n => if n = 0 then [] else Char.ofNat (48 + n % 10) :: revDecDigits fuel (n / 10)

/-- Model of Python `str(n)` for a non-negative int. -/
def natToStr (n : Nat) : String :=
  if n = 0 then "0" else String.mk (revDecDigits (n + 1) n).reverse

/-- Model of the Python format `f"{n:04d}"`: left-pad with zeros to at least
four characters (wider numbers are not truncated). -/
def pad4 (n : Nat) : String :=
  String.mk (List.replicate (4 - (natToStr n).length) '0') ++ natToStr n

/-- Every character of the string is a decimal digit. -/
def allDigitsStr (s : String) : Bool := s.toList.all Char.isDigit

/-! ## Data model

`session_manager.py` keeps sessions as dicts with a fixed key set
(`create_session`), so a session becomes a structure; scalar slot values are
nullable strings.  Orders (from `data/orders.json`) and action records (from
the three ledger files) are dicts whose keys may be absent, so their fields
are `Option String` (`none` = key absent or JSON null). -/

/-- One entry of `conversation_history` (`add_to_conversation_history`). -/
structure HistEntry where
  role : String
  message : String
  timestamp : String
  deriving Repr, DecidableEq

/-- A session dict, exactly the keys set by `create_session`
(`session_manager.py` lines 20-45). -/
structure Session where
  session_id : String
  created_at : String
  order_id : Option String
  customer_name : Option String
  customer_email : Option String
  customer_phone : Option String
  product_id : Option String
  product_name : Option String
  model_number : Option String
  serial_number : Option String
  purchase_date : Option String
  warranty_years : Option String
  issue_description : Option String
  reason_for_action : Option String
  purchase_date_confirmed : Option String
  preferred_datetime : Option String
  additional_details : Option String
  required_info_collected : Bool
  conversation_history : List HistEntry
  conversation_state : String
  action_id : Option String
  action_type : Option String
  deriving Repr, DecidableEq

/-- An order record from `data/orders.json` (keys read by the orchestrator at
lines 49-59 and by `get_order_by_id`). -/
structure Order where
  order_id : Option String
  customer_name : Option String
  customer_email : Option String
  customer_phone : Option String
  product_id : Option String
  product_name : Option String
  serial_number : Option String
  purchase_date : Option String
  warranty_years : Option String
  deriving Repr, DecidableEq

/-- An action record as built by `execute_action` (`agents.py` lines 328-363)
or already present in a ledger file.  `id` models `r.get('id', '')`: an absent
key reads as `""`. -/
structure Record where
  id : String
  refund_id : Option String := none
  replacement_id : Option String := none
  service_id : Option String := none
  product_name : Option String := none
  user_email : Option String := none
  user_name : Option String := none
  user_address : Option String := none
  contact_number : Option String := none
  service_center : Option String := none
  scheduled_date : Option String := none
  time_slot : Option String := none
  date : Option String := none
  status : Option String := none
  deriving Repr, DecidableEq

/-- One ledger JSON file: absent on disk, unreadable (so that `json.load`
raises), or a readable list of records. -/
inductive LedgerFile where
  | missing : LedgerFile
  | corrupt : LedgerFile
  | good : List Record → LedgerFile
  deriving Repr, DecidableEq

/-- The three ledger files `refunds.json`, `replacements.json`,
`service_bookings.json`. -/
structure Ledgers where
  refunds : LedgerFile
  replacements : LedgerFile
  service_bookings : LedgerFile
  deriving Repr, DecidableEq

/-- The global mutable state the pipeline touches: the in-memory
`SESSION_STATE` map and the ledger files. -/
structure PState where
  sessions : List (String × Session)
  ledgers : Ledgers
  deriving Repr, DecidableEq

/-- Ambient values the Python code obtains from the clock and the data files:
`datetime.now().isoformat()`, `datetime.now().strftime("%Y%m%d")`,
`datetime.now().strftime("%Y-%m-%d %H:%M:%S")`, and the parsed
`orders.json` (a failed load reads as the empty list). -/
structure Env where
  nowIso : String
  dateStr : String
  nowStr : String
  orders : List Order
  deriving Repr, DecidableEq

/-! ## session_manager.py -/

/-- Lookup in the session map (first match, as a Python dict has unique keys). -/
def sfind : List (String × Session) → String → Option Session
  | [], _ => none
  | (k, v) :: t, sid => if k = sid then some v else sfind t sid

/-- Rewrite the entry for `sid` in place (keys are untouched). -/
def supdate (m : List (String × Session)) (sid : String) (f : Session → Session) :
    List (String × Session) :=
  m.map (fun p => (p.1, if p.1 = sid then f p.2 else p.2))

/-- The fresh session dict built by `create_session`
(`session_manager.py` lines 20-45). -/
def freshSession (env : Env) (sid : String) : Session where
  session_id := sid
  created_at := env.nowIso
  order_id := none
  customer_name := none
  customer_email := none
  customer_phone := none
  product_id := none
  product_name := none
  model_number := none
  serial_number := none
  purchase_date := none
  warranty_years := none
  issue_description := none
  reason_for_action := none
  purchase_date_confirmed := none
  preferred_datetime := none
  additional_details := none
  required_info_collected := false
  conversation_history := []
  conversation_state := "collecting_info"
  action_id := none
  action_type := none

/-- `create_session`: add a fresh session unless one already exists. -/
def create_session (env : Env) (m : List (String × Session)) (sid : String) :
    List (String × Session) :=
  if (sfind m sid).isSome then m else m ++ [(sid, freshSession env sid)]

/-- `get_session`: retrieve the session, creating it first when absent.
Returns the (possibly grown) map together with the session.  The Python
function returns `None` only if its own body raises, which cannot happen for
a string key, so the embedded result is always present. -/
def get_session (env : Env) (m : List (String × Session)) (sid : String) :
    List (String × Session) × Session :=
  let m' := create_session env m sid
  (m', (sfind m' sid).getD (freshSession env sid))

/-- The session slot keys written through `update_session` by the
orchestrator (lines 68 and 75). -/
inductive SlotKey where
  | reason_for_action
  | preferred_datetime
  deriving Repr, DecidableEq

/-- Write one slot of a session. -/
def setSlot (k : SlotKey) (v : String) (s : Session) : Session :=
  match k with
  | .reason_for_action => { s with reason_for_action := some v }
  | .preferred_datetime => { s with preferred_datetime := some v }

/-- `update_session`: create the session if absent, then overwrite the named
slot.  Always returns `True` in the embedded (non-raising) semantics. -/
def update_session (env : Env) (m : List (String × Session)) (sid : String)
    (k : SlotKey) (v : String) : List (String × Session) :=
  supdate (create_session env m sid) sid (setSlot k v)

/-- The dict passed to `update_session_bulk` by the orchestrator (lines
49-59): all nine order fields, each possibly `None`. -/
def applyOrder (o : Order) (s : Session) : Session :=
  { s with
    order_id := o.order_id
    customer_name := o.customer_name
    customer_email := o.customer_email
    customer_phone := o.customer_phone
    product_id := o.product_id
    product_name := o.product_name
    serial_number := o.serial_number
    purchase_date := o.purchase_date
    warranty_years := o.warranty_years }

/-- `update_session_bulk` at the orchestrator call site: create if absent,
then overwrite the nine order-derived slots (a `None` value overwrites too,
exactly as `SESSION_STATE[session_id][key] = value` does). -/
def update_session_bulk (env : Env) (m : List (String × Session)) (sid : String)
    (o : Order) : List (String × Session) :=
  supdate (create_session env m sid) sid (applyOrder o)

/-- `add_to_conversation_history`: create if absent, append a timestamped
entry. -/
def add_to_conversation_history (env : Env) (m : List (String × Session))
    (sid : String) (role message : String) : List (String × Session) :=
  supdate (create_session env m sid) sid
    (fun s => { s with conversation_history :=
      s.conversation_history ++ [⟨role, message, env.nowIso⟩] })

/-- `get_session_context`: bullet list of the populated subset of five slots
(`session_manager.py` lines 133-164).  Note `get_session` creates the session
when absent. -/
def get_session_context (env : Env) (m : List (String × Session)) (sid : String) :
    List (String × Session) × String :=
  let (m', s) := get_session env m sid
  let parts : List String :=
    (if truthy s.order_id then ["Order ID: " ++ renderOpt s.order_id] else []) ++
    (if truthy s.customer_name then ["Customer: " ++ renderOpt s.customer_name] else []) ++
    (if truthy s.product_name then ["Product: " ++ renderOpt s.product_name] else []) ++
    (if truthy s.model_number then ["Model: " ++ renderOpt s.model_number] else []) ++
    (if truthy s.issue_description then ["Issue: " ++ renderOpt s.issue_description] else [])
  if parts.isEmpty then (m', "")
  else (m', "Known Information:\n" ++ String.intercalate "\n" (parts.map (fun p => "- " ++ p)))

/-- `mark_action_completed`: no-op returning false if the session does not
exist; otherwise set `action_id`, `action_type` and force
`conversation_state = "action_executed"`. -/
def mark_action_completed (m : List (String × Session)) (sid aid atype : String) :
    List (String × Session) × Bool :=
  if (sfind m sid).isSome then
    (supdate m sid (fun s =>
      { s with action_id := some aid, action_type := some atype,
               conversation_state := "action_executed" }), true)
  else (m, false)

/-- The `{missing, complete, prompt}` dict returned by
`check_missing_info_for_action`. -/
structure InfoStatus where
  missing : List String
  complete : Bool
  prompt : String
  deriving Repr, DecidableEq

/-- The slot-and-prompt computation of `check_missing_info_for_action`
(`session_manager.py` lines 251-285), as a function of the session dict and
the action type. -/
def checkMissingCore (session : Session) (action_type : String) : InfoStatus :=
  let missing : List String :=
    (if ¬ truthy session.order_id then ["order_id"] else []) ++
    (if (action_type = "initiate_refund" || action_type = "initiate_replacement") &&
        ¬ truthy session.reason_for_action then ["reason_for_action"] else []) ++
    (if action_type = "book_service" && ¬ truthy session.preferred_datetime then
        ["preferred_datetime"] else [])
  let prompt : String :=
    if missing.contains "order_id" then
      "To process your request, I\x27ll need your **Order ID** (e.g., ORD301)."
    else if missing.contains "reason_for_action" then
      (if action_type = "initiate_refund" then
        "Could you tell me the reason for your refund request?"
      else if action_type = "initiate_replacement" then
        "What issue are you experiencing with the product?"
      else "")
    else if missing.contains "preferred_datetime" then
      "When would you prefer the service? Please provide a date and time (e.g., \x27December 24, 2025 at 2:00 PM\x27)."
    else ""
  { missing := missing, complete := missing.isEmpty, prompt := prompt }

/-- `check_missing_info_for_action`: fetch (or create) the session, then run
the core computation.  The `if not session` fallback branch of the Python code
is unreachable because `get_session` always yields a dict. -/
def check_missing_info_for_action (env : Env) (m : List (String × Session))
    (sid : String) (action_type : String) : List (String × Session) × InfoStatus :=
  let (m', s) := get_session env m sid
  (m', checkMissingCore s action_type)

/-! ## order_lookup.py -/

/-- Python `d.get(key, "")`: an absent key or JSON null reads as `""`. -/
def getD' : Option String → String
  | none => ""
  | some s => s

/-- `get_order_by_id`: normalize the id (strip, uppercase) and scan the order
list for a case-insensitive exact match on the `order_id` key
(`order_lookup.py` lines 33-51).  `load_orders` failures read as `[]`, which
is the `orders` field of `Env`. -/
def get_order_by_id (orders : List Order) (order_id : String) : Option Order :=
  let clean := pyUpper (pyStrip order_id)
  orders.find? (fun o => pyUpper (getD' o.order_id) = clean)

/-- The maximal digit run `\d+` at the head of the text: fails unless the
first character is a digit, else takes the maximal run (greedy). -/
def digitsRun : List Char → Option (List Char)
  | [] => none
  | c :: t => if c.isDigit then some ((c :: t).takeWhile Char.isDigit) else none

/-- One attempt of the first regex `ORD[-\s]?(\d+)` at the current position:
case-insensitive `ORD`, then either a digit run, or one separator (`-` or
whitespace, `\s`) followed by a digit run (the regex engine first tries to
consume the optional separator and backtracks to the empty alternative, which
this case split reproduces).  Returns the digit group on success. -/
def tryOrdHere : List Char → Option (List Char)
  | o :: r :: d :: rest =>
    if lowChar o = 'o' && lowChar r = 'r' && lowChar d = 'd' then
      match rest with
      | [] => none
      | c :: rest' =>
        if c.isDigit then digitsRun (c :: rest')
        else if c = '-' || isPySpace c then digitsRun rest'
        else none
    else none
  | _ => none

/-- `re.search` of the first pattern: leftmost position where it matches. -/
def findOrd : List Char → Option (List Char)
  | [] => none
  | c :: t =>
    match tryOrdHere (c :: t) with
    | some ds => some ds
    | none => findOrd t

/-- `extract_order_id_from_message` (`order_lookup.py` lines 60-91).  The
three patterns are tried in order, but the second and third each contain
`ORD[-\s]?\d+` — the whole first pattern — inside their capture group, so
they can only match messages on which the first pattern already matched;
`re.search` on the first pattern therefore decides the result.  For the first
pattern `match.lastindex == 1`, so the captured digit run is normalized:
spaces and hyphens removed (digits have none), uppercased (digits are fixed),
and prefixed with `ORD` (a digit run never starts with `ORD`). -/
def extract_order_id_from_message (message : String) : Option String :=
  match findOrd message.toList with
  | some ds => some ("ORD" ++ String.mk ds)
  | none => none

/-- Specification-side predicate: the text contains an occurrence of
`ORD[-\s]?\d+` (case-insensitive), i.e. a recognizable order-id pattern.
Occurrences of the second and third source patterns contain one of these, so
"none of the three patterns occurs" is equivalent to `¬ hasOrdPattern`. -/
def hasOrdPattern (l : List Char) : Prop :=
  ∃ pre o r d sep ds post,
    l = pre ++ [o, r, d] ++ sep ++ ds ++ post ∧
    lowChar o = 'o' ∧ lowChar r = 'r' ∧ lowChar d = 'd' ∧
    (sep = [] ∨ ∃ c, sep = [c] ∧ (c = '-' ∨ isPySpace c)) ∧
    ds ≠ [] ∧ ds.all Char.isDigit

/-! ## agents.py — intent, action and execution -/

/-- Python exceptions are modelled by their message. -/
abbrev PyErr := String

/-- The raw generative model: `model` is `None` when Vertex AI failed to
init, otherwise a map from prompt to generated text that may raise. -/
abbrev RawModel := Option (String → Except PyErr String)

/-- The classification prompt built by `intent_agent` (`agents.py` lines
43-62). -/
def intentPrompt (user_message : String) : String :=
  "You are an intent classification agent for a customer support system.\n\nYour task is to classify the user query into exactly ONE of the following intent labels:\n\n- troubleshoot\n- refund\n- replacement\n- service_booking\n- order_status\n- product_information\n- general_query\n\nRules:\n- Choose only ONE label.\n- Do not explain your answer.\n- Do not add extra text.\n- Output only the label.\n\nUser query:\n" ++ user_message

/-- The label set `intent_agent` enforces on its output. -/
def validIntents : List String :=
  ["troubleshoot", "refund", "replacement", "service_booking",
   "order_status", "product_information", "general_query"]

/-- `intent_agent` (`agents.py` lines 36-80): no model or any failure yields
`"general_query"`; otherwise the stripped, lowered model output, replaced by
`"general_query"` when outside `validIntents`. -/
def intent_agent (model : RawModel) (user_message : String) : String :=
  match model with
  | none => "general_query"
  | some gen =>
    match gen (intentPrompt user_message) with
    | .error _ => "general_query"
    | .ok t =>
      let intent := pyLower (pyStrip t)
      if validIntents.contains intent then intent else "general_query"

/-- `action_agent` (`agents.py` lines 176-202): fixed deterministic
intent-to-action mapping, defaulting to `"none"`. -/
def action_agent (intent : String) (_verified_response : String) : String :=
  if intent = "refund" then "initiate_refund"
  else if intent = "replacement" then "initiate_replacement"
  else if intent = "service_booking" then "book_service"
  else "none"

/-- `action_confirmation_agent` (`agents.py` lines 206-231): `None` for the
`"none"` action; the canned fallback if the model is missing or raises; the
stripped model output otherwise. -/
def action_confirmation_agent (model : RawModel) (action_type : String) :
    Option String :=
  if action_type = "none" then none
  else
    match model with
    | none => some ("To proceed with " ++ action_type ++ ", please confirm.")
    | some gen =>
      match gen ("You are confirming an operational action with the customer.\n\nPolitely ask for confirmation to proceed.\nClearly explain what will happen next.\n\nAction:\n" ++ action_type) with
      | .ok t => some (pyStrip t)
      | .error _ => some ("To proceed with " ++ action_type ++ ", please confirm.")

/-- The ledger file `generate_action_id` and `save_action_data` use for an
action type, when the type is one of the three known ones. -/
def ledgerOf (L : Ledgers) (action_type : String) : LedgerFile :=
  if action_type = "initiate_refund" then L.refunds
  else if action_type = "initiate_replacement" then L.replacements
  else L.service_bookings

/-- Replace the ledger file of an action type. -/
def setLedger (L : Ledgers) (action_type : String) (lf : LedgerFile) : Ledgers :=
  if action_type = "initiate_refund" then { L with refunds := lf }
  else if action_type = "initiate_replacement" then { L with replacements := lf }
  else { L with service_bookings := lf }

/-- The count of `[r for r in records if date_str in r.get('id', '')]`
(`agents.py` line 262). -/
def todayCount (dateStr : String) (recs : List Record) : Nat :=
  (recs.filter (fun r => isSub dateStr.toList r.id.toList)).length

/-- `generate_action_id` (`agents.py` lines 235-272).  Unknown action types
fall to the `ACTION-` id before any file access; a missing file starts the
sequence at 1; an unreadable file makes `json.load` raise, which the
enclosing `except` turns into the `ERR-` fallback; otherwise the sequence is
one plus the count of records whose id contains today's date string. -/
def generate_action_id (action_type : String) (dateStr : String) (lf : LedgerFile) :
    String :=
  if action_type = "initiate_refund" || action_type = "initiate_replacement" ||
     action_type = "book_service" then
    let pfx : String :=
      if action_type = "initiate_refund" then "REF"
      else if action_type = "initiate_replacement" then "REP"
      else "SRV"
    match lf with
    | .missing => pfx ++ "-" ++ dateStr ++ "-" ++ pad4 1
    | .corrupt => "ERR-" ++ dateStr ++ "-0000"
    | .good recs => pfx ++ "-" ++ dateStr ++ "-" ++ pad4 (todayCount dateStr recs + 1)
  else "ACTION-" ++ dateStr ++ "-0001"

/-- `save_action_data` (`agents.py` lines 275-311): unknown type saves
nothing; a missing file becomes a one-record file; an unreadable file makes
`json.load` raise, caught as `False` with the file untouched; otherwise the
record is appended and the file rewritten. -/
def save_action_data (action_type : String) (rec : Record) (L : Ledgers) :
    Ledgers × Bool :=
  if action_type = "initiate_refund" || action_type = "initiate_replacement" ||
     action_type = "book_service" then
    match ledgerOf L action_type with
    | .missing => (setLedger L action_type (.good [rec]), true)
    | .corrupt => (L, false)
    | .good recs => (setLedger L action_type (.good (recs ++ [rec])), true)
  else (L, false)

/-- The `user_details` dict the orchestrator passes to `execute_action`
(orchestrator lines 178-184): all five keys present, the first four possibly
`None`. -/
structure UserDetails where
  email : Option String
  name : Option String
  product_name : Option String
  order_id : Option String
  phone : String
  deriving Repr, DecidableEq

/-- The result dict of `execute_action`.  A failure result carries only
`action`, `status` and `error`; an unknown-type result only `action`,
`status` and `message`. -/
structure ActionResult where
  action : String
  action_id : Option String := none
  status : String
  message : Option String := none
  data : Option Record := none
  error : Option String := none
  deriving Repr, DecidableEq

/-- Field access `user_details.get(key, default)` where the orchestrator
always passes the key: the stored (possibly `None`) value when the dict is
present, the default when `user_details` itself is `None`. -/
def udGet (ud : Option UserDetails) (f : UserDetails → Option String)
    (dflt : Option String) : Option String :=
  match ud with
  | some u => f u
  | none => dflt

/-- `execute_action` (`agents.py` lines 314-393).  Pure state transformer on
the ledgers; the embedded body cannot raise, so the `"failed"` branch of the
source is unreachable here (it is exercised through the collaborator
interface in the orchestrator embedding). -/
def execute_action (env : Env) (action : String) (ud : Option UserDetails)
    (L : Ledgers) : Ledgers × Option ActionResult :=
  if action = "none" then (L, none)
  else
    let aid := generate_action_id action env.dateStr (ledgerOf L action)
    if action = "initiate_refund" || action = "initiate_replacement" then
      let rec0 : Record :=
        { id := aid
          refund_id := if action = "initiate_refund" then some aid else none
          replacement_id := if action = "initiate_replacement" then some aid else none
          product_name := udGet ud (·.product_name) (some "N/A")
          user_email := udGet ud (·.email) (some "")
          user_name := udGet ud (·.name) (some "")
          date := some env.nowStr
          status := some "processing" }
      let (L', ok) := save_action_data action rec0 L
      (L', some { action := action, action_id := some aid,
                  status := if ok then "success" else "partial",
                  message := some ("Action \x27" ++ action ++ "\x27 has been logged with ID: " ++ aid),
                  data := some rec0 })
    else if action = "book_service" then
      -- The orchestrator dict has no "address" / "service_center" /
      -- "scheduled_date" / "time_slot" keys, so the `.get` defaults apply.
      let rec0 : Record :=
        { id := aid
          service_id := some aid
          product_name := udGet ud (·.product_name) (some "N/A")
          user_email := udGet ud (·.email) (some "")
          user_name := udGet ud (·.name) (some "")
          user_address := some ""
          contact_number := some (match ud with | some u => u.phone | none => "")
          service_center := some "Nearest Center"
          scheduled_date := some "TBD"
          time_slot := some "TBD"
          date := some env.nowStr }
      let (L', ok) := save_action_data action rec0 L
      (L', some { action := action, action_id := some aid,
                  status := if ok then "success" else "partial",
                  message := some ("Action \x27" ++ action ++ "\x27 has been logged with ID: " ++ aid),
                  data := some rec0 })
    else
      (L, some { action := action, status := "unknown",
                 message := some ("Unknown action type: " ++ action) })

/-! ## orchestrator.py

The orchestrator is embedded in a state-and-exception monad `PyM`: Python
mutation of `SESSION_STATE` and the ledger files is state threading, a raised
exception is an `Except.error` that keeps the state already committed (as
Python mutation does).  The functions the orchestrator imports are collected
in a `Collab` record, so that the orchestrator is verified against arbitrary
implementations of its imports — its own `try/except` structure is what
handles their failures — and `realCollab` instantiates them with the
embeddings above (generative calls stay oracles). -/

/-- The Python effect monad: state plus exceptions, where state mutations
survive a raise. -/
def PyM (α : Type) : Type := PState → Except PyErr α × PState

instance : Monad PyM where
  pure a := fun st => (.ok a, st)
  bind m f := fun st =>
    match m st with
    | (.ok a, st') => f a st'
    | (.error e, st') => (.error e, st')

/-- Raise an exception. -/
def PyM.throw {α : Type} (e : PyErr) : PyM α := fun st => (.error e, st)

/-- `try: m  except Exception: return d` — the orchestrator's local fallback
pattern. -/
def pyTry {α : Type} (m : PyM α) (d : α) : PyM α := fun st =>
  match m st with
  | (.ok a, st') => (.ok a, st')
  | (.error _, st') => (.ok d, st')

/-- Run a computation and reify its outcome, keeping any state it committed
(models a `try/except` block whose handler needs the exception). -/
def pyAttempt {α : Type} (m : PyM α) : PyM (Except PyErr α) := fun st =>
  match m st with
  | (.ok a, st') => (.ok (.ok a), st')
  | (.error e, st') => (.ok (.error e), st')

/-- Lift a pure, stateless collaborator call. -/
def pyLift {α : Type} (r : Except PyErr α) : PyM α := fun st => (r, st)

/-- Read the session object the local variable `session` aliases: the current
map entry (mutated in place by `session_manager`), with the originally
returned dict as fallback. -/
def aliasRead (base : Session) (sid : String) : PyM Session := fun st =>
  (.ok ((sfind st.sessions sid).getD base), st)

/-- Dereferencing the `session` variable (first done at orchestrator line
65): if `get_session` returned `None`, `session.get` raises and nothing
catches it below the top level. -/
def requireSession : Option Session → PyM Session
  | some s => pure s
  | none => PyM.throw "AttributeError: \x27NoneType\x27 object has no attribute \x27get\x27"

/-- The external generative and I/O collaborators: one raw Vertex AI model
shared by all agents, the RAG search, and the three notification senders
(result reduced to the `success` flag, the only part the orchestrator
reads). -/
structure GenOracles where
  model : RawModel
  search : String → Except PyErr (List String)
  notifyRefund : String → Option String → Option String → Except PyErr Bool
  notifyReplacement : String → Option String → Option String → Except PyErr Bool
  notifyService : String → Option Record → Option String → Except PyErr Bool

/-- The interface of everything `orchestrator.py` imports, as the
orchestrator sees it: opaque callables that may raise. -/
structure Collab where
  intent_agent : String → PyM String
  retrieval_agent : String → PyM String
  responder_agent : String → String → String → PyM String
  verifier_agent : String → String → PyM String
  action_confirmation_agent : String → PyM (Option String)
  execute_action : String → Option UserDetails → PyM (Option ActionResult)
  send_refund_email : String → Option String → Option String → PyM Bool
  send_replacement_email : String → Option String → Option String → PyM Bool
  send_service_email : String → Option Record → Option String → PyM Bool
  get_session : String → PyM (Option Session)
  add_to_conversation_history : String → String → String → PyM Unit
  update_session : String → SlotKey → String → PyM Bool
  update_session_bulk : String → Order → PyM Bool
  get_session_context : String → PyM String
  check_missing_info_for_action : String → String → PyM InfoStatus
  mark_action_completed : String → String → String → PyM Bool
  extract_order_id_from_message : String → PyM (Option String)
  get_order_by_id : String → PyM (Option Order)

/-- `retrieval_agent` (`agents.py` lines 84-94): join the retrieved documents
with blank lines; any failure reads as the empty context. -/
def retrieval_agent (G : GenOracles) (query : String) : String :=
  match G.search query with
  | .ok docs => if docs.isEmpty then "" else String.intercalate "\n\n" docs
  | .error _ => ""

/-- The responder prompt (`agents.py` lines 105-124). -/
def responderPrompt (context message session_context : String) : String :=
  "You are AURA, a professional and empathetic customer support executive.\n\nYour job is to answer the user accurately using ONLY the provided context.\nIf the context is insufficient, clearly state what additional information is required.\n\n" ++
  session_context ++
  "\n\nCRITICAL RULES:\n- Be clear, polite, and professional.\n- Respond in the SAME language as the user.\n- Provide step-by-step guidance if troubleshooting.\n- Do not invent facts, policies, or procedures.\n- DO NOT ask for information already mentioned in \"Known Information\" above\n- Only ask for information that is truly missing and required\n\nContext:\n" ++
  (if context = "" then "No context available" else context) ++
  "\n\nUser query:\n" ++ message

/-- `responder_agent` (`agents.py` lines 98-134): canned apology when the
model is missing or raises, else the stripped model output. -/
def responder_agent (G : GenOracles) (context message session_context : String) :
    String :=
  match G.model with
  | none => "I apologize, but I\x27m experiencing technical difficulties. Please try again later."
  | some gen =>
    match gen (responderPrompt context message session_context) with
    | .ok t => pyStrip t
    | .error _ => "I apologize, but I\x27m having trouble processing your request. Please try again."

/-- The verifier prompt (`agents.py` lines 148-162). -/
def verifierPrompt (context draft_response : String) : String :=
  "You are a response quality verifier.\n\nContext:\n" ++ context ++
  "\n\nDraft Response:\n" ++ draft_response ++
  "\n\nTask: Verify if the draft response is accurate, helpful, and professional.\nIf it\x27s good, return it unchanged. If it needs minor fixes, return the corrected version.\n\nRules:\n- Keep the tone professional and friendly\n- Ensure accuracy\n- Only output the final response text (no explanations)"

/-- `verifier_agent` (`agents.py` lines 138-172): the draft passes through
unchanged when the model is missing or raises. -/
def verifier_agent (G : GenOracles) (draft_response context : String) : String :=
  match G.model with
  | none => draft_response
  | some gen =>
    match gen (verifierPrompt context draft_response) with
    | .ok t => pyStrip t
    | .error _ => draft_response

/-- The real collaborators: the repository embeddings above for session,
order and action code, and the oracles `G` for generative and notification
calls.  These functions never raise; their internal `try/except` blocks
already swallow every failure. -/
def realCollab (G : GenOracles) (env : Env) : Collab where
  intent_agent := fun m => pure (intent_agent G.model m)
  retrieval_agent := fun q => pure (retrieval_agent G q)
  responder_agent := fun c m s => pure (responder_agent G c m s)
  verifier_agent := fun d c => pure (verifier_agent G d c)
  action_confirmation_agent := fun a => pure (action_confirmation_agent G.model a)
  execute_action := fun a ud => fun st =>
    let (L', r) := execute_action env a ud st.ledgers
    (.ok r, { st with ledgers := L' })
  send_refund_email := fun aid pn em => pyLift (G.notifyRefund aid pn em)
  send_replacement_email := fun aid pn em => pyLift (G.notifyReplacement aid pn em)
  send_service_email := fun aid bd em => pyLift (G.notifyService aid bd em)
  get_session := fun sid => fun st =>
    let (m', s) := get_session env st.sessions sid
    (.ok (some s), { st with sessions := m' })
  add_to_conversation_history := fun sid role msg => fun st =>
    (.ok (), { st with sessions := add_to_conversation_history env st.sessions sid role msg })
  update_session := fun sid k v => fun st =>
    (.ok true, { st with sessions := update_session env st.sessions sid k v })
  update_session_bulk := fun sid o => fun st =>
    (.ok true, { st with sessions := update_session_bulk env st.sessions sid o })
  get_session_context := fun sid => fun st =>
    let (m', c) := get_session_context env st.sessions sid
    (.ok c, { st with sessions := m' })
  check_missing_info_for_action := fun sid a => fun st =>
    let (m', i) := check_missing_info_for_action env st.sessions sid a
    (.ok i, { st with sessions := m' })
  mark_action_completed := fun sid aid a => fun st =>
    let (m', b) := mark_action_completed st.sessions sid aid a
    (.ok b, { st with sessions := m' })
  extract_order_id_from_message := fun m => pure (extract_order_id_from_message m)
  get_order_by_id := fun oid => pure (get_order_by_id env.orders oid)

/-- The structured result dict of `process_message` (orchestrator lines
241-249 and 256-264). -/
structure ResultPayload where
  answer : String
  intent : String
  rag_sources : String
  action : String
  action_confirmation : Option String
  action_log : Option ActionResult
  session_id : String
  deriving Repr, DecidableEq

/-- Orchestrator lines 47-62: on a lookup hit, bulk-store the nine order
fields in the session; a miss only logs. -/
def orderStageStore (C : Collab) (sid : String) : Option Order → PyM Unit
  | some order => do
    let _ ← C.update_session_bulk sid order
    pure ()
  | none => pure ()

/-- Orchestrator lines 41-62: on an extracted order id, fetch the order and
store it. -/
def orderStageLookup (C : Collab) (sid : String) : Option String → PyM Unit
  | some oid => do
    let od ← C.get_order_by_id oid
    orderStageStore C sid od
  | none => pure ()

/-- Orchestrator lines 39-62: scan the message for an order id; on a match,
look the order up; on a hit, bulk-store the nine order fields in the
session. -/
def orderStage (C : Collab) (sid message : String) : PyM Unit := do
  let extracted ← C.extract_order_id_from_message message
  orderStageLookup C sid extracted

/-- The fixed keyword list of orchestrator line 73. -/
def datetimeKeywords : List String :=
  ["tomorrow", "monday", "tuesday", "wednesday", "thursday", "friday",
   "saturday", "sunday", "next week", "pm", "am", "december", "january"]

/-- Orchestrator line 74: `any(keyword in message.lower() for keyword in
datetime_keywords)`. -/
def hasDatetimeKeyword (message : String) : Bool :=
  datetimeKeywords.any (fun k => strIn k (pyLower message))

/-- Orchestrator lines 64-69: store the stripped message as
`reason_for_action` when an order id is known, no reason is known yet, the
message is longer than 10 characters and its stripped form does not end in
`?`. -/
def captureReason (C : Collab) (base : Session) (sid message : String) :
    PyM Unit := do
  let s1 ← aliasRead base sid
  if truthy s1.order_id && ! truthy s1.reason_for_action then
    if message.length > 10 && ! endsQ (pyStrip message) then do
      let _ ← C.update_session sid .reason_for_action (pyStrip message)
      pure ()
    else pure ()
  else pure ()

/-- Orchestrator lines 71-76: store the stripped message as
`preferred_datetime` when an order id is known, no datetime is known yet and
the lowered message contains one of the fixed keywords. -/
def captureDatetime (C : Collab) (base : Session) (sid message : String) :
    PyM Unit := do
  let s2 ← aliasRead base sid
  if truthy s2.order_id && ! truthy s2.preferred_datetime then
    if hasDatetimeKeyword message then do
      let _ ← C.update_session sid .preferred_datetime (pyStrip message)
      pure ()
    else pure ()
  else pure ()

/-- Orchestrator lines 64-76, the opportunistic slot capture. -/
def captureStage (C : Collab) (base : Session) (sid message : String) :
    PyM Unit := do
  captureReason C base sid message
  captureDatetime C base sid message

/-- The flow-controller bypass labels (orchestrator line 101). -/
def actionIntents : List String :=
  ["initiate_refund", "initiate_replacement", "book_service"]

/-- The flow-controller condition of orchestrator line 101:
`session.get("order_id") and intent in [...]`. -/
def flowBypassCond (s : Session) (intent : String) : Bool :=
  truthy s.order_id && actionIntents.contains intent

/-- The human-readable label of orchestrator lines 110-115 and 194-199. -/
def actionLabel (a : String) : String :=
  if a = "initiate_refund" then "refund"
  else if a = "initiate_replacement" then "replacement"
  else if a = "book_service" then "service appointment"
  else "request"

/-- The deterministic acknowledgement the flow controller composes from the
session slots (orchestrator lines 105-120).  All session keys exist, so the
`.get` defaults `"Customer"` and `"your product"` never apply; a `None`
value renders as `"None"` in the f-string. -/
def bypassMessage (s : Session) (intent : String) : String :=
  "Thank you, " ++ renderOpt s.customer_name ++
  ". I understand you\x27d like to proceed with a " ++ actionLabel intent ++
  " for " ++ renderOpt s.product_name ++ " (Order ID: " ++ renderOpt s.order_id ++
  ").\n\nI\x27m processing your " ++ actionLabel intent ++
  " request now. Please wait a moment..."

/-- Orchestrator lines 123-138: draft generation with canned fallback, then
verification falling back to the draft. -/
def responderPath (C : Collab) (context message session_context : String) :
    PyM String := do
  let draft ← pyTry (C.responder_agent context message session_context)
    "I apologize, but I\x27m experiencing technical difficulties. Please try again later."
  pyTry (C.verifier_agent draft context) draft

/-- Orchestrator lines 97-138: either the deterministic bypass or the
responder/verifier path. -/
def responseStage (C : Collab) (s : Session) (intent context message session_context : String) :
    PyM String :=
  if flowBypassCond s intent then pure (bypassMessage s intent)
  else responderPath C context message session_context

/-- The apology appended by the action-stage exception handler (orchestrator
line 234). -/
def actionErrApology : String :=
  "\n\nI apologize, but I encountered an error processing your request. Please try again or contact support directly."

/-- The failure result built by the action-stage exception handler
(orchestrator line 233). -/
def failedResult (e : PyErr) : ActionResult :=
  { action := "", status := "failed", error := some e }

/-- The clean confirmation of orchestrator lines 202-204. -/
def successMessage (a aid : String) : String :=
  "Your " ++ actionLabel a ++ " request has been processed.\n\n**Request ID:** " ++
  aid ++ "\n\nYou\x27ll receive confirmation via email shortly."

/-- The background notification block, orchestrator lines 210-226: the inner
`try/except` swallows every failure and the result is only logged. -/
def notifyStage (C : Collab) (a aid : String) (ud : UserDetails)
    (res : ActionResult) : PyM Unit := do
  let _ ← pyAttempt (do
    if a = "initiate_refund" then
      let _ ← C.send_refund_email aid ud.product_name ud.email
      pure ()
    else if a = "initiate_replacement" then
      let _ ← C.send_replacement_email aid ud.product_name ud.email
      pure ()
    else if a = "book_service" then
      let _ ← C.send_service_email aid res.data ud.email
      pure ()
    else pure ())
  pure ()

/-- Orchestrator lines 189-229 for a successful execution: build the clean
confirmation, fire the best-effort notification, and mark the session's
action completed (a raise there is caught by the stage handler, which appends
the apology to the already-overwritten response and replaces the action
result with a `"failed"` dict). -/
def actionSuccessTail (C : Collab) (sid action : String) (ud : UserDetails)
    (r : ActionResult) : PyM (String × String × Option ActionResult) := do
  let aid := getD' r.action_id
  let v2 := successMessage action aid
  notifyStage C action aid ud r
  match ← pyAttempt (C.mark_action_completed sid aid action) with
  | .error e => pure (v2 ++ actionErrApology, action, some (failedResult e))
  | .ok _ => pure (v2, action, some r)

/-- Orchestrator lines 187-230: dispatch on the result of `execute_action`
(only a `"success"` status triggers the confirmation / notification /
mark-completed block). -/
def actionResultDispatch (C : Collab) (sid action verified : String)
    (ud : UserDetails) : Option ActionResult →
    PyM (String × String × Option ActionResult)
  | some r =>
    if r.status = "success" then actionSuccessTail C sid action ud r
    else pure (verified, action, some r)
  | none => pure (verified, action, none)

/-- Orchestrator lines 158-235, the action execution stage.  Returns the
(possibly overwritten) outgoing response, the (possibly reset) action and the
action result.  The enclosing `try/except` appends an apology to whatever
`verified_response` holds at the raise point and replaces the action result
with a `"failed"` dict, leaving `action` untouched. -/
def actionStage (C : Collab) (base : Session) (sid action verified : String) :
    PyM (String × String × Option ActionResult) := do
  if action = "none" then pure (verified, action, none)
  else do
    match ← pyAttempt (C.check_missing_info_for_action sid action) with
    | .error e => pure (verified ++ actionErrApology, action, some (failedResult e))
    | .ok info =>
      if ¬ info.complete then
        -- Information incomplete: overwrite the response with the prompt and
        -- reset the action for this turn (orchestrator lines 167-171).
        pure (info.prompt, "none", none)
      else do
        let s ← aliasRead base sid
        let ud : UserDetails :=
          { email := s.customer_email, name := s.customer_name,
            product_name := s.product_name, order_id := s.order_id,
            phone := getD' s.customer_phone }
        match ← pyAttempt (C.execute_action action (some ud)) with
        | .error e => pure (verified ++ actionErrApology, action, some (failedResult e))
        | .ok res => actionResultDispatch C sid action verified ud res

/-- Orchestrator lines 34-76: session resolution, history append, order
linkage and opportunistic slot capture.  Returns the session dict the local
`session` variable aliases. -/
def preStage (C : Collab) (sid message : String) : PyM Session := do
  let sessOpt ← C.get_session sid
  C.add_to_conversation_history sid "user" message
  orderStage C sid message
  let base ← requireSession sessOpt
  captureStage C base sid message
  pure base

/-- Orchestrator lines 79-138: session context, intent classification,
retrieval, and the flow-controlled response.  Returns
`(intent, context, verified_response)`. -/
def genStage (C : Collab) (base : Session) (sid message : String) :
    PyM (String × String × String) := do
  let session_context ← C.get_session_context sid
  let intent ← pyTry (C.intent_agent message) "general_query"
  let context ← pyTry (C.retrieval_agent message) ""
  let s3 ← aliasRead base sid
  let verified ← responseStage C s3 intent context message session_context
  pure (intent, context, verified)

/-- Orchestrator lines 149-156: the optional consent message; a failure
leaves it `None`. -/
def confirmStage (C : Collab) (action : String) : PyM (Option String) :=
  if action ≠ "none" then pyTry (C.action_confirmation_agent action) none
  else pure none

/-- The body of `process_message` inside the top-level `try` (orchestrator
lines 25-252). -/
def processBody (C : Collab) (message sid : String) : PyM ResultPayload := do
  let base ← preStage C sid message
  let icv ← genStage C base sid message
  let action := action_agent icv.1 icv.2.2
  let confirmation ← confirmStage C action
  let out ← actionStage C base sid action icv.2.2
  C.add_to_conversation_history sid "assistant" out.1
  pure { answer := out.1, intent := icv.1, rag_sources := pyTake 500 icv.2.1,
         action := out.2.1, action_confirmation := confirmation,
         action_log := out.2.2, session_id := sid }

/-- The fixed apology payload of the top-level handler (orchestrator lines
256-264). -/
def errorPayload (sid : String) : ResultPayload :=
  { answer := "I apologize, but I encountered an error processing your request. Please try again.",
    intent := "error", rag_sources := "", action := "none",
    action_confirmation := none, action_log := none,
    session_id := if sid = "" then "unknown" else sid }

/-- Orchestrator lines 27-29: use the supplied session id unless it is falsy
(`None` or `""`), else the freshly generated `session_{uuid}` value, passed
here as `fresh`. -/
def resolveSid (sessionId : Option String) (fresh : String) : String :=
  match sessionId with
  | none => fresh
  | some "" => fresh
  | some s => s

/-- `process_message` (orchestrator lines 20-264): run the body; any
exception escaping it is caught and replaced by the fixed apology payload,
with all state mutations committed before the raise retained. -/
def process_message (C : Collab) (message : String) (sessionId : Option String)
    (fresh : String) : PState → ResultPayload × PState := fun st =>
  let sid := resolveSid sessionId fresh
  match processBody C message sid st with
  | (.ok r, st') => (r, st')
  | (.error _, st') => (errorPayload sid, st')

/-! ## Supporting lemmas -/

lemma revDecDigits_all_digits : ∀ (fuel n : Nat),
    ((revDecDigits fuel n).all Char.isDigit) = true := by
  intro fuel
  induction fuel with
  | zero => intro n; rfl
  | succ f ih =>
    intro n
    rw [revDecDigits]
    by_cases h : n = 0
    · simp [h]
    · have hlt : n % 10 < 10 := Nat.mod_lt _ (by norm_num)
      have hdig : (Char.ofNat (48 + n % 10)).isDigit = true := by
        interval_cases h : (n % 10) <;> decide
      simp [h, List.all_cons, hdig, ih]

lemma revDecDigits_length : ∀ (fuel n k : Nat), n < 10 ^ k →
    (revDecDigits fuel n).length ≤ k := by
  intro fuel
  induction fuel with
  | zero => intro n k _; simp [revDecDigits]
  | succ f ih =>
    intro n k hk
    rw [revDecDigits]
    by_cases h : n = 0
    · simp [h]
    · have hk0 : k ≠ 0 := by
        rintro rfl
        simp at hk
        omega
      have hdiv : n / 10 < 10 ^ (k - 1) := by
        rw [Nat.div_lt_iff_lt_mul (by norm_num)]
        have : 10 ^ (k - 1) * 10 = 10 ^ k := by
          rw [mul_comm, ← pow_succ']
          congr 1
          omega
        omega
      have := ih (n / 10) (k - 1) hdiv
      simp only [h, if_false, List.length_cons]
      omega

lemma natToStr_all_digits (n : Nat) : allDigitsStr (natToStr n) = true := by
  rw [natToStr]
  by_cases h : n = 0
  · simp [h]; decide
  · simp only [h, if_false, allDigitsStr]
    show ((revDecDigits (n + 1) n).reverse.all Char.isDigit) = true
    rw [List.all_reverse]
    exact revDecDigits_all_digits _ _

lemma natToStr_length_le (n k : Nat) (hn : n < 10 ^ k) (hk : 0 < k) :
    (natToStr n).length ≤ k := by
  rw [natToStr]
  by_cases h : n = 0
  · simpa [h] using hk
  · simp only [h, if_false]
    show (revDecDigits (n + 1) n).reverse.length ≤ k
    rw [List.length_reverse]
    exact revDecDigits_length _ _ _ hn

lemma pad4_length (n : Nat) (h : n ≤ 9999) : (pad4 n).length = 4 := by
  have hle : (natToStr n).length ≤ 4 :=
    natToStr_length_le n 4 (by omega) (by norm_num)
  rw [pad4, String.length_append]
  show (List.replicate (4 - (natToStr n).length) '0').length + _ = 4
  rw [List.length_replicate]
  omega

lemma pad4_all_digits (n : Nat) : allDigitsStr (pad4 n) = true := by
  have h0 : ∀ c ∈ List.replicate (4 - (natToStr n).length) '0', c.isDigit = true := by
    intro c hc
    rw [List.eq_of_mem_replicate hc]
    decide
  have h1 := natToStr_all_digits n
  rw [allDigitsStr] at h1 ⊢
  rw [pad4]
  show ((String.mk _ ++ natToStr n).data.all Char.isDigit) = true
  rw [String.data_append, List.all_append, Bool.and_eq_true]
  exact ⟨List.all_eq_true.2 h0, h1⟩

/-! ## Claim C5 -/

/-- The action-id regex of the spec, `^(REF|REP|SRV)-\d{8}-\d{4}$`, stated as
an explicit decomposition. -/
def matchesActionIdPat (s : String) : Prop :=
  ∃ p d q : String,
    (p = "REF" ∨ p = "REP" ∨ p = "SRV") ∧
    d.length = 8 ∧ allDigitsStr d = true ∧
    q.length = 4 ∧ allDigitsStr q = true ∧
    s = p ++ "-" ++ d ++ "-" ++ q

/-- Claim C5, counterexample: the id generator does not produce a
`(REF|REP|SRV)` id (nor the `ERR` fallback) for every action type it can be
given — the action type `"none"` yields an `ACTION-` id. -/
theorem c5_counterexample :
    generate_action_id "none" "20260101" (.good []) = "ACTION-20260101-0001"
    ∧ ¬ matchesActionIdPat "ACTION-20260101-0001"
    ∧ "ACTION-20260101-0001" ≠ "ERR-20260101-0000" := by
  refine ⟨rfl, ?_, by decide⟩
  rintro ⟨p, d, q, hp, hd, -, hq, -, heq⟩
  have hl := congrArg String.length heq
  rw [String.length_append, String.length_append, String.length_append,
    String.length_append] at hl
  have h20 : ("ACTION-20260101-0001" : String).length = 20 := rfl
  have h1 : ("-" : String).length = 1 := rfl
  rcases hp with rfl | rfl | rfl <;>
    simp only [h20, h1, hd, hq, show ("REF" : String).length = 3 from rfl,
      show ("REP" : String).length = 3 from rfl,
      show ("SRV" : String).length = 3 from rfl] at hl <;> omega

/-- Claim C5 (amended): for the three operational action types, the generated
id matches `^(REF|REP|SRV)-\d{8}-\d{4}$` whenever the ledger read does not
raise and fewer than 9999 same-date records exist (the Python `{seq:04d}`
format does not truncate wider numbers); an unreadable ledger makes id
generation raise internally and yields the documented `ERR-` fallback.  Other
action types (not produced by the pipeline) yield an `ACTION-` id instead. -/
theorem c5_action_id_format (action_type dateStr : String) (lf : LedgerFile)
    (hA : action_type ∈ actionIntents)
    (hd8 : dateStr.length = 8) (hdd : allDigitsStr dateStr = true) :
    (lf = .corrupt →
      generate_action_id action_type dateStr lf = "ERR-" ++ dateStr ++ "-0000")
    ∧ (lf = .missing → matchesActionIdPat (generate_action_id action_type dateStr lf))
    ∧ (∀ recs, lf = .good recs → todayCount dateStr recs ≤ 9998 →
        matchesActionIdPat (generate_action_id action_type dateStr lf)) := by
  have hA' : action_type = "initiate_refund" ∨ action_type = "initiate_replacement"
      ∨ action_type = "book_service" := by simpa [actionIntents] using hA
  rcases hA' with rfl | rfl | rfl <;> refine ⟨?_, ?_, ?_⟩ <;>
    first
    | (rintro rfl; rfl)
    | (rintro rfl
       exact ⟨_, dateStr, pad4 1, by decide, hd8, hdd,
         pad4_length 1 (by norm_num), pad4_all_digits 1, rfl⟩)
    | (rintro recs rfl hcount
       exact ⟨_, dateStr, pad4 (todayCount dateStr recs + 1), by decide, hd8, hdd,
         pad4_length _ (by omega), pad4_all_digits _, rfl⟩)

/-- Witness for `c5_action_id_format` at a concrete input. -/
theorem c5_action_id_format_witness :
    matchesActionIdPat (generate_action_id "initiate_refund" "20260101" (.good [])) :=
  (c5_action_id_format "initiate_refund" "20260101" (.good [])
    (by decide) rfl (by decide)).2.2 [] rfl (by decide)

/-! ## Claim C4 -/

lemma pfxOf_self_append : ∀ (n b : List Char), pfxOf n (n ++ b) = true := by
  intro n
  induction n with
  | nil => intro b; rfl
  | cons a s ih => intro b; simp [pfxOf, ih]

lemma isSub_nil : ∀ (l : List Char), isSub [] l = true := by
  intro l; cases l <;> simp [isSub, pfxOf, List.isEmpty]

lemma isSub_append_mid : ∀ (a n b : List Char), isSub n (a ++ (n ++ b)) = true := by
  intro a
  induction a with
  | nil =>
    intro n b
    cases n with
    | nil => simpa using isSub_nil b
    | cons x n' =>
      have hp : pfxOf (x :: n') (x :: (n' ++ b)) = true := pfxOf_self_append (x :: n') b
      simp [isSub, hp]
  | cons c a' ih =>
    intro n b
    simp [isSub, ih n b]

lemma strIn_mid (x d y : String) : isSub d.toList (x ++ d ++ y).toList = true := by
  show isSub d.data (x ++ d ++ y).data = true
  rw [String.data_append, String.data_append, List.append_assoc]
  exact isSub_append_mid ..

lemma todayCount_append_one (d : String) (recs : List Record) (r : Record)
    (h : isSub d.toList r.id.toList = true) :
    todayCount d (recs ++ [r]) = todayCount d recs + 1 := by
  have h' : isSub d.data r.id.data = true := h
  simp [todayCount, List.filter_append, List.filter_cons, h']

lemma ledgerOf_setLedger (L : Ledgers) (a : String) (lf : LedgerFile) :
    ledgerOf (setLedger L a lf) a = lf := by
  by_cases h1 : a = "initiate_refund" <;> by_cases h2 : a = "initiate_replacement" <;>
    simp [ledgerOf, setLedger, h1, h2]

/-- The id prefix per action type (`agents.py` lines 245-253). -/
def actionPfxStr (a : String) : String :=
  if a = "initiate_refund" then "REF"
  else if a = "initiate_replacement" then "REP"
  else "SRV"

lemma isSub_in_quad (x d y z : String) :
    isSub d.toList (x ++ d ++ y ++ z).toList = true := by
  have hx : x ++ d ++ y ++ z = x ++ d ++ (y ++ z) := by rw [String.append_assoc]
  rw [hx]
  exact strIn_mid x d (y ++ z)

/-- One successful execution on a readable ledger: the id embeds the current
same-date count plus one, the record is appended to the same ledger, and the
count there grows by one. -/
lemma c4_step (env : Env) (ud : Option UserDetails) (a : String)
    (ha : a = "initiate_refund" ∨ a = "initiate_replacement" ∨ a = "book_service")
    (L : Ledgers) (recs : List Record) (hr : ledgerOf L a = .good recs) :
    ∃ rec res,
      execute_action env a ud L = (setLedger L a (.good (recs ++ [rec])), some res) ∧
      res.status = "success" ∧
      res.action_id = some (actionPfxStr a ++ "-" ++ env.dateStr ++ "-" ++
        pad4 (todayCount env.dateStr recs + 1)) ∧
      rec.id = actionPfxStr a ++ "-" ++ env.dateStr ++ "-" ++
        pad4 (todayCount env.dateStr recs + 1) ∧
      todayCount env.dateStr (recs ++ [rec]) = todayCount env.dateStr recs + 1 := by
  rcases ha with rfl | rfl | rfl <;>
    (simp [execute_action, generate_action_id, save_action_data, hr, actionPfxStr]
     refine ⟨_, _, ⟨rfl, rfl⟩, rfl, rfl, rfl, ?_⟩
     exact todayCount_append_one _ _ _ (isSub_in_quad _ env.dateStr "-" _))

/-- The ledger state after `n` executions of the same action with the same
user details. -/
def afterActions (env : Env) (a : String) (ud : Option UserDetails) :
    Nat → Ledgers → Ledgers
  | 0, L => L
  | n + 1, L => (execute_action env a ud (afterActions env a ud n L)).1

/-- Claim C4: starting from a readable ledger with no same-date records, the
(n+1)-st successfully executed action of a given type is allocated sequence
number n+1 — the id generator counts the same-date records in that type's
ledger, uses the count plus one, and the built record is appended to the same
ledger, keeping the count in lockstep. -/
theorem c4_sequential_allocation (env : Env) (ud : Option UserDetails)
    (action_type : String) (hA : action_type ∈ actionIntents)
    (L0 : Ledgers) (recs0 : List Record)
    (hled : ledgerOf L0 action_type = .good recs0)
    (h0 : todayCount env.dateStr recs0 = 0) :
    ∀ n : Nat, ∃ recs rec res,
      ledgerOf (afterActions env action_type ud n L0) action_type = .good recs ∧
      todayCount env.dateStr recs = n ∧
      execute_action env action_type ud (afterActions env action_type ud n L0)
        = (afterActions env action_type ud (n + 1) L0, some res) ∧
      res.status = "success" ∧
      res.action_id = some (actionPfxStr action_type ++ "-" ++ env.dateStr ++ "-" ++
        pad4 (n + 1)) ∧
      ledgerOf (afterActions env action_type ud (n + 1) L0) action_type
        = .good (recs ++ [rec]) ∧
      rec.id = actionPfxStr action_type ++ "-" ++ env.dateStr ++ "-" ++ pad4 (n + 1) ∧
      todayCount env.dateStr (recs ++ [rec]) = n + 1 := by
  have ha : action_type = "initiate_refund" ∨ action_type = "initiate_replacement"
      ∨ action_type = "book_service" := by simpa [actionIntents] using hA
  have key : ∀ n : Nat, ∃ recs,
      ledgerOf (afterActions env action_type ud n L0) action_type = .good recs ∧
      todayCount env.dateStr recs = n := by
    intro n
    induction n with
    | zero => exact ⟨recs0, hled, h0⟩
    | succ k ih =>
      obtain ⟨recs, hr, hc⟩ := ih
      obtain ⟨rec, res, hexec, -, -, -, hcount⟩ := c4_step env ud action_type ha _ recs hr
      refine ⟨recs ++ [rec], ?_, by rw [hcount, hc]⟩
      show ledgerOf (execute_action env action_type ud (afterActions env action_type ud k L0)).1
          action_type = _
      rw [hexec]
      exact ledgerOf_setLedger ..
  intro n
  obtain ⟨recs, hr, hc⟩ := key n
  obtain ⟨rec, res, hexec, hst, hid, hrid, hcount⟩ := c4_step env ud action_type ha _ recs hr
  refine ⟨recs, rec, res, hr, hc, ?_, hst, by rw [hid, hc], ?_, by rw [hrid, hc],
    by rw [hcount, hc]⟩
  · show _ = ((execute_action env action_type ud (afterActions env action_type ud n L0)).1,
      some res)
    rw [hexec]
  · show ledgerOf (execute_action env action_type ud (afterActions env action_type ud n L0)).1
        action_type = _
    rw [hexec]
    exact ledgerOf_setLedger ..

/-- Witness for `c4_sequential_allocation` at a concrete input. -/
theorem c4_sequential_allocation_witness :
    ∃ recs rec res,
      ledgerOf (afterActions
        ⟨"t", "20260101", "now", []⟩ "initiate_refund" none 1
        ⟨.good [], .good [], .good []⟩) "initiate_refund" = .good recs ∧
      todayCount "20260101" recs = 1 ∧
      execute_action ⟨"t", "20260101", "now", []⟩ "initiate_refund" none
        (afterActions ⟨"t", "20260101", "now", []⟩ "initiate_refund" none 1
          ⟨.good [], .good [], .good []⟩)
        = (afterActions ⟨"t", "20260101", "now", []⟩ "initiate_refund" none 2
            ⟨.good [], .good [], .good []⟩, some res) ∧
      res.status = "success" ∧
      res.action_id = some (actionPfxStr "initiate_refund" ++ "-" ++ "20260101" ++ "-" ++
        pad4 2) ∧
      ledgerOf (afterActions ⟨"t", "20260101", "now", []⟩ "initiate_refund" none 2
          ⟨.good [], .good [], .good []⟩) "initiate_refund" = .good (recs ++ [rec]) ∧
      rec.id = actionPfxStr "initiate_refund" ++ "-" ++ "20260101" ++ "-" ++ pad4 2 ∧
      todayCount "20260101" (recs ++ [rec]) = 2 :=
  c4_sequential_allocation ⟨"t", "20260101", "now", []⟩ none "initiate_refund"
    (by decide) ⟨.good [], .good [], .good []⟩ [] rfl rfl 1

/-! ## Claim C6 -/

/-- Spec-side (§4.3): slot lookup by name, for the three slots the slot-fill
engine inspects. -/
def slotValue (s : Session) (k : String) : Option String :=
  if k = "order_id" then s.order_id
  else if k = "reason_for_action" then s.reason_for_action
  else s.preferred_datetime

/-- Spec-side (§4.3): the required-slots table, in priority order —
`order_id` first, then the type-specific second slot. -/
def specRequiredSlots (action_type : String) : List String :=
  if action_type = "book_service" then ["order_id", "preferred_datetime"]
  else ["order_id", "reason_for_action"]

/-- Spec-side (§4.3): the second required slot per action type. -/
def specSecondSlot (action_type : String) : String :=
  if action_type = "book_service" then "preferred_datetime" else "reason_for_action"

/-- Spec-side (§4.3): the type-specific second-slot question. -/
def specSecondPrompt (action_type : String) : String :=
  if action_type = "initiate_refund" then
    "Could you tell me the reason for your refund request?"
  else if action_type = "initiate_replacement" then
    "What issue are you experiencing with the product?"
  else
    "When would you prefer the service? Please provide a date and time (e.g., \x27December 24, 2025 at 2:00 PM\x27)."

/-- Claim C6: for the three action types, `check_missing` is a pure function
of the session slots and the action type — its `missing` list is the
priority-ordered required-slots table filtered to the unpopulated slots
(`order_id` checked first), `complete` holds exactly when every required slot
is populated, the prompt asks for the order id (with an example format)
whenever it is missing and otherwise asks the type-specific question for the
second missing slot, and the result depends on nothing but the three slots. -/
theorem c6_check_missing (s : Session) (atype : String) (hA : atype ∈ actionIntents) :
    (checkMissingCore s atype).missing
      = (specRequiredSlots atype).filter (fun k => ! truthy (slotValue s k))
    ∧ ((checkMissingCore s atype).complete = true ↔
        ∀ k ∈ specRequiredSlots atype, truthy (slotValue s k) = true)
    ∧ (truthy s.order_id = false →
        (checkMissingCore s atype).prompt
          = "To process your request, I\x27ll need your **Order ID** (e.g., ORD301).")
    ∧ (truthy s.order_id = true → truthy (slotValue s (specSecondSlot atype)) = false →
        (checkMissingCore s atype).prompt = specSecondPrompt atype)
    ∧ (∀ s' : Session, s'.order_id = s.order_id →
        s'.reason_for_action = s.reason_for_action →
        s'.preferred_datetime = s.preferred_datetime →
        checkMissingCore s' atype = checkMissingCore s atype) := by
  have hA' : atype = "initiate_refund" ∨ atype = "initiate_replacement"
      ∨ atype = "book_service" := by simpa [actionIntents] using hA
  have purity : ∀ s' : Session, s'.order_id = s.order_id →
      s'.reason_for_action = s.reason_for_action →
      s'.preferred_datetime = s.preferred_datetime →
      checkMissingCore s' atype = checkMissingCore s atype := by
    intro s' h1 h2 h3
    simp only [checkMissingCore, h1, h2, h3]
  rcases hA' with rfl | rfl | rfl <;>
    rcases ho : truthy s.order_id <;>
    rcases hr : truthy s.reason_for_action <;>
    rcases hp : truthy s.preferred_datetime <;>
    refine ⟨?_, ?_, ?_, ?_, purity⟩ <;>
    simp [checkMissingCore, specRequiredSlots, specSecondSlot, specSecondPrompt,
      slotValue, ho, hr, hp]

/-- Witness for `c6_check_missing` at a concrete input. -/
theorem c6_check_missing_witness :
    (checkMissingCore (freshSession ⟨"t", "d", "n", []⟩ "s") "initiate_refund").missing
      = (specRequiredSlots "initiate_refund").filter
          (fun k => ! truthy (slotValue (freshSession ⟨"t", "d", "n", []⟩ "s") k)) :=
  (c6_check_missing (freshSession ⟨"t", "d", "n", []⟩ "s") "initiate_refund" (by decide)).1

/-! ## Claim C8 -/

lemma digitsRun_some {l ds : List Char} (h : digitsRun l = some ds) :
    ds ≠ [] ∧ ds.all Char.isDigit = true := by
  match l with
  | [] => simp [digitsRun] at h
  | c :: t =>
    rw [digitsRun] at h
    split_ifs at h with hc
    · cases h
      refine ⟨?_, List.all_takeWhile⟩
      rw [List.takeWhile_cons, if_pos hc]
      simp

lemma tryOrdHere_some {l ds : List Char} (h : tryOrdHere l = some ds) :
    ds ≠ [] ∧ ds.all Char.isDigit = true := by
  rw [tryOrdHere.eq_def] at h
  split at h
  · split_ifs at h with h1
    split at h
    · cases h
    · split_ifs at h with h2 h3
      · exact digitsRun_some h
      · exact digitsRun_some h
  · cases h

lemma findOrd_some : ∀ {l ds : List Char}, findOrd l = some ds →
    ds ≠ [] ∧ ds.all Char.isDigit = true := by
  intro l
  induction l with
  | nil => intro ds h; simp [findOrd] at h
  | cons c t ih =>
    intro ds h
    rw [findOrd] at h
    rcases htry : tryOrdHere (c :: t) with - | ds'
    · rw [htry] at h
      exact ih h
    · rw [htry] at h
      cases h
      exact tryOrdHere_some htry

lemma tryOrdHere_hasPattern {l ds : List Char} (h : tryOrdHere l = some ds) :
    hasOrdPattern l := by
  rw [tryOrdHere.eq_def] at h
  split at h
  case _ o r d rest =>
    split_ifs at h with h1
    obtain ⟨⟨ho, hr⟩, hd⟩ : (lowChar o = 'o' ∧ lowChar r = 'r') ∧ lowChar d = 'd' := by
      simpa using h1
    split at h
    · cases h
    case _ c rest' =>
      split_ifs at h with h2 h3
      · rw [digitsRun, if_pos h2] at h
        cases h
        refine ⟨[], o, r, d, [], (c :: rest').takeWhile Char.isDigit,
          (c :: rest').dropWhile Char.isDigit,
          by simp [List.takeWhile_append_dropWhile], ho, hr, hd, Or.inl rfl,
          ?_, List.all_takeWhile⟩
        rw [List.takeWhile_cons, if_pos h2]
        simp
      · match rest', h with
        | c2 :: t2, h =>
          rw [digitsRun] at h
          split_ifs at h with h4
          cases h
          refine ⟨[], o, r, d, [c], (c2 :: t2).takeWhile Char.isDigit,
            (c2 :: t2).dropWhile Char.isDigit,
            by simp [List.takeWhile_append_dropWhile], ho, hr, hd,
            Or.inr ⟨c, rfl, by simpa using h3⟩,
            ?_, List.all_takeWhile⟩
          rw [List.takeWhile_cons, if_pos h4]
          simp
  · cases h

lemma hasOrdPattern_cons {c : Char} {t : List Char} (h : hasOrdPattern t) :
    hasOrdPattern (c :: t) := by
  obtain ⟨pre, o, r, d, sep, ds, post, heq, ho, hr, hd, hsep, hne, hdig⟩ := h
  exact ⟨c :: pre, o, r, d, sep, ds, post, by rw [heq]; simp, ho, hr, hd, hsep, hne, hdig⟩

lemma findOrd_hasPattern : ∀ {l ds : List Char}, findOrd l = some ds →
    hasOrdPattern l := by
  intro l
  induction l with
  | nil => intro ds h; simp [findOrd] at h
  | cons c t ih =>
    intro ds h
    rw [findOrd] at h
    rcases htry : tryOrdHere (c :: t) with - | ds'
    · rw [htry] at h
      exact hasOrdPattern_cons (ih h)
    · rw [htry] at h
      cases h
      exact tryOrdHere_hasPattern htry

/-- Claim C8: `extract_order_id_from_message` is idempotent under its own
normalization — re-running it on a returned identifier yields that same
identifier — and it returns `none` on any input containing no recognizable
order-id pattern (the second and third source patterns embed the first, so
`hasOrdPattern` covers all three). -/
theorem c8_extract_idempotent :
    (∀ msg oid, extract_order_id_from_message msg = some oid →
      extract_order_id_from_message oid = some oid)
    ∧ (∀ msg, ¬ hasOrdPattern msg.toList →
      extract_order_id_from_message msg = none) := by
  constructor
  · intro msg oid h
    rw [extract_order_id_from_message] at h
    rcases hfind : findOrd msg.toList with - | ds
    · rw [hfind] at h; cases h
    · rw [hfind] at h
      cases h
      obtain ⟨hne, hdig⟩ := findOrd_some hfind
      match ds, hne with
      | c0 :: ds', _ =>
        have hc0 : c0.isDigit = true := by
          rw [List.all_cons, Bool.and_eq_true] at hdig
          exact hdig.1
        rw [extract_order_id_from_message]
        have hlist : ("ORD" ++ String.mk (c0 :: ds')).toList
            = 'O' :: 'R' :: 'D' :: c0 :: ds' := by
          show ("ORD" ++ String.mk (c0 :: ds')).data = _
          rw [String.data_append]
          rfl
        rw [hlist]
        have htry : tryOrdHere ('O' :: 'R' :: 'D' :: c0 :: ds')
            = some (c0 :: ds') := by
          rw [tryOrdHere, if_pos (by decide), if_pos hc0, digitsRun, if_pos hc0]
          congr 1
          exact List.takeWhile_eq_self_iff.2 (by simpa [List.all_eq_true] using hdig)
        rw [findOrd, htry]
  · intro msg h
    rw [extract_order_id_from_message]
    rcases hfind : findOrd msg.toList with - | ds
    · rfl
    · exact absurd (findOrd_hasPattern hfind) h

/-- Witness for `c8_extract_idempotent` at a concrete input. -/
theorem c8_extract_idempotent_witness :
    extract_order_id_from_message "ORD12" = some "ORD12" :=
  c8_extract_idempotent.1 "my order id: ORD 12" "ORD12" rfl

/-! ## Pipeline infrastructure lemmas -/

lemma PyM_bind_def {α β : Type} (m : PyM α) (f : α → PyM β) (st : PState) :
    (m >>= f) st = match m st with
      | (.ok a, st') => f a st'
      | (.error e, st') => (.error e, st') := rfl

lemma PyM_pure_def {α : Type} (a : α) (st : PState) :
    (pure a : PyM α) st = (.ok a, st) := rfl

lemma PyM_bind_ok {α β : Type} {m : PyM α} {st st' : PState} {a : α}
    (f : α → PyM β) (h : m st = (.ok a, st')) : (m >>= f) st = f a st' := by
  have hdef : (m >>= f) st = match m st with
      | (.ok a, st') => f a st'
      | (.error e, st') => (.error e, st') := rfl
  rw [hdef, h]

/-! ## Claim C1 -/

/-- Claim C1: the pipeline bypasses the responder/verifier and composes the
deterministic acknowledgement from the session slots (customer name, product
name, order id embedded in `bypassMessage`) precisely when the session's
`order_id` is truthy and the classified intent is one of `initiate_refund`,
`initiate_replacement`, `book_service`: in that case the response stage
returns `bypassMessage` unchanged for every implementation of the
collaborators and leaves the state untouched (so neither is invoked); in
every other case the stage runs the responder and then the verifier and
returns the verifier's output. -/
theorem c1_flow_controller (C : Collab) (s : Session)
    (intent context message session_context : String) (st : PState) :
    ((truthy s.order_id = true ∧ intent ∈ actionIntents) →
      responseStage C s intent context message session_context st
        = (.ok (bypassMessage s intent), st))
    ∧ (¬ (truthy s.order_id = true ∧ intent ∈ actionIntents) →
      ∀ (d v : String) (st1 st2 : PState),
        C.responder_agent context message session_context st = (.ok d, st1) →
        C.verifier_agent d context st1 = (.ok v, st2) →
        responseStage C s intent context message session_context st = (.ok v, st2)) := by
  have hcond : flowBypassCond s intent = true ↔
      (truthy s.order_id = true ∧ intent ∈ actionIntents) := by
    simp [flowBypassCond, List.contains, Bool.and_eq_true, List.elem_iff]
  constructor
  · intro h
    rw [responseStage, if_pos (hcond.2 h)]
    rfl
  · intro h d v st1 st2 hresp hver
    have hp1 : pyTry (C.responder_agent context message session_context)
        "I apologize, but I\x27m experiencing technical difficulties. Please try again later." st
        = (.ok d, st1) := by
      unfold pyTry
      rw [hresp]
    have hp2 : pyTry (C.verifier_agent d context) d st1 = (.ok v, st2) := by
      unfold pyTry
      rw [hver]
    rw [responseStage, if_neg (fun hb => h (hcond.1 hb)), responderPath,
      PyM_bind_def, hp1]
    exact hp2

/-! ## Shared concrete samples (used by witnesses and counterexamples) -/

/-- A concrete order, as one entry of `orders.json`. -/
def sampleOrder : Order :=
  { order_id := some "ORD201", customer_name := some "Asha Rao",
    customer_email := some "asha@example.com", customer_phone := some "9999",
    product_id := some "P100", product_name := some "AURA Speaker",
    serial_number := some "SN1", purchase_date := some "2025-01-01",
    warranty_years := some "2" }

/-- A concrete ambient environment. -/
def sampleEnv : Env :=
  { nowIso := "2026-01-01T00:00:00", dateStr := "20260101",
    nowStr := "2026-01-01 00:00:00", orders := [sampleOrder] }

/-- Concrete generative oracles: the Vertex AI model failed to come up, RAG
returns nothing, notifications succeed. -/
def sampleGen : GenOracles :=
  { model := none, search := fun _ => .ok [],
    notifyRefund := fun _ _ _ => .ok true,
    notifyReplacement := fun _ _ _ => .ok true,
    notifyService := fun _ _ _ => .ok true }

/-- Three empty (readable) ledger files. -/
def sampleLedgers : Ledgers := ⟨.good [], .good [], .good []⟩

/-- A state with no session yet. -/
def emptyState : PState := { sessions := [], ledgers := sampleLedgers }

/-- A session that already knows the order id but no reason. -/
def sampleSession : Session :=
  { freshSession sampleEnv "s1" with order_id := some "ORD201" }

/-- A state holding `sampleSession` under `"s1"`. -/
def sampleState : PState :=
  { sessions := [("s1", sampleSession)], ledgers := sampleLedgers }

/-- Witness for `c1_flow_controller` at a concrete input. -/
theorem c1_flow_controller_witness :
    responseStage (realCollab sampleGen sampleEnv) sampleSession "initiate_refund"
      "" "msg" "" sampleState
      = (.ok (bypassMessage sampleSession "initiate_refund"), sampleState) :=
  (c1_flow_controller (realCollab sampleGen sampleEnv) sampleSession
    "initiate_refund" "" "msg" "" sampleState).1 ⟨by decide, by decide⟩

/-! ## Claim C2 -/

lemma intent_agent_valid (model : RawModel) (msg : String) :
    intent_agent model msg ∈ validIntents := by
  cases model with
  | none =>
    show "general_query" ∈ validIntents
    decide
  | some gen =>
    show (match gen (intentPrompt msg) with
      | .error _ => "general_query"
      | .ok t =>
        if validIntents.contains (pyLower (pyStrip t)) then pyLower (pyStrip t)
        else "general_query") ∈ validIntents
    cases h : gen (intentPrompt msg) with
    | error e =>
      show "general_query" ∈ validIntents
      decide
    | ok t =>
      show (if validIntents.contains (pyLower (pyStrip t)) = true
          then pyLower (pyStrip t) else "general_query") ∈ validIntents
      split_ifs with h1
      · simpa [List.contains, List.elem_iff] using h1
      · decide

/-- Claim C2: the classifier only ever emits labels from its documented
seven-label set (enforced, defaulting to `general_query`), that set is
disjoint from the three action labels the flow controller tests, so the
bypass condition is false on every classifier output and the
responder/verifier path is always taken — the deterministic acknowledgement
branch is unreachable through `intent_agent`. -/
theorem c2_bypass_unreachable :
    (∀ (model : RawModel) (msg : String), intent_agent model msg ∈ validIntents)
    ∧ (∀ (s : Session) (i : String), i ∈ validIntents →
        flowBypassCond s i = false
        ∧ ∀ (C : Collab) (context message session_context : String),
            responseStage C s i context message session_context
              = responderPath C context message session_context) := by
  refine ⟨intent_agent_valid, ?_⟩
  intro s i hi
  have hi' : i = "troubleshoot" ∨ i = "refund" ∨ i = "replacement" ∨
      i = "service_booking" ∨ i = "order_status" ∨ i = "product_information" ∨
      i = "general_query" := by simpa [validIntents] using hi
  have hc : actionIntents.contains i = false := by
    rcases hi' with rfl | rfl | rfl | rfl | rfl | rfl | rfl <;> decide
  have hfb : flowBypassCond s i = false := by
    rw [flowBypassCond, hc, Bool.and_false]
  refine ⟨hfb, fun C context message session_context => ?_⟩
  rw [responseStage, if_neg (by simp [hfb])]

/-- Witness for `c2_bypass_unreachable` at a concrete input. -/
theorem c2_bypass_unreachable_witness :
    flowBypassCond sampleSession "refund" = false :=
  ((c2_bypass_unreachable).2 sampleSession "refund" (by decide)).1

/-! ## Claim C9 -/

/-- Claim C9: whenever any unhandled exception escapes the body of the
pipeline, `process_message` does not propagate it: it returns exactly the
fixed apology payload — apology answer, intent `"error"`, action `"none"`,
empty `rag_sources`, null confirmation and action log — and the state it
returns is precisely the state the body had committed up to the failure
point, so slot writes made before the raise remain in the session store. -/
theorem c9_top_level_catch (C : Collab) (message : String)
    (sessionId : Option String) (fresh : String) (st st' : PState) (e : PyErr)
    (h : processBody C message (resolveSid sessionId fresh) st = (.error e, st')) :
    process_message C message sessionId fresh st
      = ({ answer := "I apologize, but I encountered an error processing your request. Please try again.",
           intent := "error", rag_sources := "", action := "none",
           action_confirmation := none, action_log := none,
           session_id := if resolveSid sessionId fresh = "" then "unknown"
             else resolveSid sessionId fresh }, st') := by
  rw [process_message]
  rw [h]
  rfl

/-- A collaborator set whose session lookup raises (the store backend is
down); every other import behaves trivially. -/
def throwingCollab : Collab where
  intent_agent := fun _ => pure "general_query"
  retrieval_agent := fun _ => pure ""
  responder_agent := fun _ _ _ => pure ""
  verifier_agent := fun d _ => pure d
  action_confirmation_agent := fun _ => pure none
  execute_action := fun _ _ => pure none
  send_refund_email := fun _ _ _ => pure true
  send_replacement_email := fun _ _ _ => pure true
  send_service_email := fun _ _ _ => pure true
  get_session := fun _ => PyM.throw "session backend down"
  add_to_conversation_history := fun _ _ _ => pure ()
  update_session := fun _ _ _ => pure true
  update_session_bulk := fun _ _ => pure true
  get_session_context := fun _ => pure ""
  check_missing_info_for_action := fun _ _ => pure ⟨[], true, ""⟩
  mark_action_completed := fun _ _ _ => pure true
  extract_order_id_from_message := fun _ => pure none
  get_order_by_id := fun _ => pure none

/-- Witness for `c9_top_level_catch` at a concrete input. -/
theorem c9_top_level_catch_witness :
    process_message throwingCollab "hello" (some "s1") "f" emptyState
      = ({ answer := "I apologize, but I encountered an error processing your request. Please try again.",
           intent := "error", rag_sources := "", action := "none",
           action_confirmation := none, action_log := none,
           session_id := "s1" }, emptyState) :=
  c9_top_level_catch throwingCollab "hello" (some "s1") "f" emptyState emptyState
    "session backend down" rfl

/-! ## Session-map and collaborator lemmas -/

lemma sfind_supdate_self (m : List (String × Session)) (sid : String)
    (f : Session → Session) :
    sfind (supdate m sid f) sid = (sfind m sid).map f := by
  induction m with
  | nil => rfl
  | cons p t ih =>
    obtain ⟨k, v⟩ := p
    by_cases h : k = sid
    · subst h
      simp [supdate, sfind]
    · simpa [supdate, sfind, h] using ih

lemma sfind_append_self {m : List (String × Session)} {sid : String}
    (x : Session) (h : sfind m sid = none) :
    sfind (m ++ [(sid, x)]) sid = some x := by
  induction m with
  | nil => simp [sfind]
  | cons p t ih =>
    obtain ⟨k, v⟩ := p
    by_cases hk : k = sid
    · rw [sfind, if_pos hk] at h
      cases h
    · rw [List.cons_append, sfind, if_neg hk]
      rw [sfind, if_neg hk] at h
      exact ih h

lemma create_session_of_present {env : Env} {m : List (String × Session)}
    {sid : String} {s : Session} (h : sfind m sid = some s) :
    create_session env m sid = m := by
  simp [create_session, h]

lemma create_session_of_absent {env : Env} {m : List (String × Session)}
    {sid : String} (h : sfind m sid = none) :
    create_session env m sid = m ++ [(sid, freshSession env sid)] := by
  simp [create_session, h]

lemma get_session_of_present {env : Env} {m : List (String × Session)}
    {sid : String} {s : Session} (h : sfind m sid = some s) :
    get_session env m sid = (m, s) := by
  simp [get_session, create_session_of_present h, h]

lemma get_session_of_absent {env : Env} {m : List (String × Session)}
    {sid : String} (h : sfind m sid = none) :
    get_session env m sid
      = (m ++ [(sid, freshSession env sid)], freshSession env sid) := by
  simp [get_session, create_session_of_absent h, sfind_append_self _ h]

lemma pyAttempt_of {α : Type} {m : PyM α} {st st' : PState} {a : α}
    (h : m st = (.ok a, st')) : pyAttempt m st = (.ok (.ok a), st') := by
  unfold pyAttempt
  rw [h]

lemma pyTry_of {α : Type} {m : PyM α} {st st' : PState} {a : α} (d : α)
    (h : m st = (.ok a, st')) : pyTry m d st = (.ok a, st') := by
  unfold pyTry
  rw [h]

lemma rc_get_session_present {G : GenOracles} {env : Env} {sid : String}
    {st : PState} {s : Session} (h : sfind st.sessions sid = some s) :
    (realCollab G env).get_session sid st = (.ok (some s), st) := by
  show (let p := get_session env st.sessions sid
        (Except.ok (some p.2), { st with sessions := p.1 })) = _
  rw [get_session_of_present h]

lemma rc_get_session_absent {G : GenOracles} {env : Env} {sid : String}
    {st : PState} (h : sfind st.sessions sid = none) :
    (realCollab G env).get_session sid st
      = (.ok (some (freshSession env sid)),
         { st with sessions := st.sessions ++ [(sid, freshSession env sid)] }) := by
  show (let p := get_session env st.sessions sid
        (Except.ok (some p.2), { st with sessions := p.1 })) = _
  rw [get_session_of_absent h]

lemma rc_add_history {G : GenOracles} {env : Env} (sid role msg : String)
    (st : PState) :
    (realCollab G env).add_to_conversation_history sid role msg st
      = (.ok (), { st with sessions :=
          add_to_conversation_history env st.sessions sid role msg }) := rfl

lemma rc_update_session {G : GenOracles} {env : Env} (sid : String) (k : SlotKey)
    (v : String) (st : PState) :
    (realCollab G env).update_session sid k v st
      = (.ok true, { st with sessions := update_session env st.sessions sid k v }) := rfl

lemma rc_update_bulk {G : GenOracles} {env : Env} (sid : String) (o : Order)
    (st : PState) :
    (realCollab G env).update_session_bulk sid o st
      = (.ok true, { st with sessions := update_session_bulk env st.sessions sid o }) := rfl

lemma get_session_context_fst_present {env : Env} {m : List (String × Session)}
    {sid : String} {s : Session} (h : sfind m sid = some s) :
    (get_session_context env m sid).1 = m := by
  rw [get_session_context, get_session_of_present h]
  try dsimp only
  split_ifs <;> rfl

lemma rc_get_context_present (G : GenOracles) (env : Env) {sid : String}
    {st : PState} {s : Session} (h : sfind st.sessions sid = some s) :
    ∃ c : String, (realCollab G env).get_session_context sid st = (.ok c, st) := by
  refine ⟨(get_session_context env st.sessions sid).2, ?_⟩
  have hbase : (realCollab G env).get_session_context sid st
      = (.ok (get_session_context env st.sessions sid).2,
         { st with sessions := (get_session_context env st.sessions sid).1 }) := rfl
  rw [hbase, get_session_context_fst_present h]

lemma rc_check_missing_present {G : GenOracles} {env : Env} {sid : String}
    {st : PState} {s : Session} (a : String) (h : sfind st.sessions sid = some s) :
    (realCollab G env).check_missing_info_for_action sid a st
      = (.ok (checkMissingCore s a), st) := by
  show (let p := check_missing_info_for_action env st.sessions sid a
        (Except.ok p.2, { st with sessions := p.1 })) = _
  rw [check_missing_info_for_action, get_session_of_present h]

lemma rc_mark_completed_present {G : GenOracles} {env : Env} {sid : String}
    {st : PState} {s : Session} (aid a : String) (h : sfind st.sessions sid = some s) :
    (realCollab G env).mark_action_completed sid aid a st
      = (.ok true, { st with sessions := supdate st.sessions sid (fun s0 =>
          { s0 with action_id := some aid, action_type := some a,
                    conversation_state := "action_executed" }) }) := by
  show (let p := mark_action_completed st.sessions sid aid a
        (Except.ok p.2, { st with sessions := p.1 })) = _
  rw [mark_action_completed, if_pos (by rw [h]; rfl)]

lemma rc_execute {G : GenOracles} {env : Env} {a : String} {ud : Option UserDetails}
    {st : PState} {L' : Ledgers} {r : Option ActionResult}
    (he : execute_action env a ud st.ledgers = (L', r)) :
    (realCollab G env).execute_action a ud st = (.ok r, { st with ledgers := L' }) := by
  show (let p := execute_action env a ud st.ledgers
        (Except.ok p.2, { st with ledgers := p.1 })) = _
  rw [he]

lemma rc_intent {G : GenOracles} {env : Env} (m : String) (st : PState) :
    (realCollab G env).intent_agent m st = (.ok (intent_agent G.model m), st) := rfl

lemma rc_retrieval {G : GenOracles} {env : Env} (q : String) (st : PState) :
    (realCollab G env).retrieval_agent q st = (.ok (retrieval_agent G q), st) := rfl

lemma rc_responder {G : GenOracles} {env : Env} (c m s : String) (st : PState) :
    (realCollab G env).responder_agent c m s st
      = (.ok (responder_agent G c m s), st) := rfl

lemma rc_verifier {G : GenOracles} {env : Env} (d c : String) (st : PState) :
    (realCollab G env).verifier_agent d c st = (.ok (verifier_agent G d c), st) := rfl

lemma rc_confirmation {G : GenOracles} {env : Env} (a : String) (st : PState) :
    (realCollab G env).action_confirmation_agent a st
      = (.ok (action_confirmation_agent G.model a), st) := rfl

lemma rc_extract {G : GenOracles} {env : Env} (m : String) (st : PState) :
    (realCollab G env).extract_order_id_from_message m st
      = (.ok (extract_order_id_from_message m), st) := rfl

lemma rc_get_order {G : GenOracles} {env : Env} (oid : String) (st : PState) :
    (realCollab G env).get_order_by_id oid st
      = (.ok (get_order_by_id env.orders oid), st) := rfl

/-! ## Claim C3 -/

/-- Claim C3: when the resolved action is not `"none"` and the slot-fill
check reports incomplete information, the action stage returns the engine's
prompt as the outgoing response and `"none"` as the action, produces no
action result, and leaves the whole state — sessions and ledgers — exactly
as it was: no ledger write happens and no action id is allocated.  In
particular, for `initiate_refund` with `order_id` set and
`reason_for_action` empty, the response is exactly the refund-reason
prompt. -/
theorem c3_incomplete_blocks_action (G : GenOracles) (env : Env)
    (base s : Session) (sid action verified : String) (st : PState)
    (hs : sfind st.sessions sid = some s)
    (hne : action ≠ "none")
    (hinc : (checkMissingCore s action).complete = false) :
    actionStage (realCollab G env) base sid action verified st
      = (.ok ((checkMissingCore s action).prompt, "none", none), st)
    ∧ (action = "initiate_refund" → truthy s.order_id = true →
        truthy s.reason_for_action = false →
        (checkMissingCore s action).prompt
          = "Could you tell me the reason for your refund request?") := by
  constructor
  · rw [actionStage]
    rw [if_neg hne]
    rw [PyM_bind_def, pyAttempt_of (rc_check_missing_present action hs)]
    dsimp only
    rw [if_pos (by simp [hinc])]
    rfl
  · rintro rfl horder hreason
    simp [checkMissingCore, horder, hreason]

/-- Witness for `c3_incomplete_blocks_action` at a concrete input. -/
theorem c3_incomplete_blocks_action_witness :
    actionStage (realCollab sampleGen sampleEnv) sampleSession "s1"
      "initiate_refund" "draft" sampleState
      = (.ok ((checkMissingCore sampleSession "initiate_refund").prompt,
              "none", none), sampleState) :=
  (c3_incomplete_blocks_action sampleGen sampleEnv sampleSession sampleSession
    "s1" "initiate_refund" "draft" sampleState rfl (by decide) (by decide)).1

/-! ## Claim C7 -/

lemma aliasRead_of {sid : String} {st : PState} {s : Session} (base : Session)
    (hs : sfind st.sessions sid = some s) :
    aliasRead base sid st = (.ok s, st) := by
  unfold aliasRead
  rw [hs]
  rfl

lemma sfind_supdate_of {m : List (String × Session)} {sid : String} {s : Session}
    (f : Session → Session) (hs : sfind m sid = some s) :
    sfind (supdate m sid f) sid = some (f s) := by
  rw [sfind_supdate_self, hs]
  rfl

lemma captureReason_real {G : GenOracles} {env : Env} {s : Session}
    {sid msg : String} {st : PState} (base : Session)
    (hs : sfind st.sessions sid = some s) :
    captureReason (realCollab G env) base sid msg st
      = (.ok (), if (truthy s.order_id && ! truthy s.reason_for_action)
            && (decide (msg.length > 10) && ! endsQ (pyStrip msg)) then
          { st with sessions := supdate st.sessions sid (setSlot .reason_for_action (pyStrip msg)) }
        else st) := by
  rw [captureReason, PyM_bind_def, aliasRead_of base hs]
  try dsimp only
  by_cases h1 : (truthy s.order_id && ! truthy s.reason_for_action) = true
  · rw [if_pos h1]
    by_cases h2 : (decide (msg.length > 10) && ! endsQ (pyStrip msg)) = true
    · rw [if_pos (by simpa using h2), if_pos (by rw [h1, h2]; rfl)]
      rw [PyM_bind_def, rc_update_session]
      dsimp only
      rw [PyM_pure_def, update_session, create_session_of_present hs]
    · rw [if_neg (by simpa using h2), if_neg (by rw [h1, Bool.true_and]; simpa using h2)]
      rfl
  · rw [if_neg h1, if_neg (by rw [Bool.and_eq_true]; tauto)]
    rfl

lemma captureDatetime_real {G : GenOracles} {env : Env} {s : Session}
    {sid msg : String} {st : PState} (base : Session)
    (hs : sfind st.sessions sid = some s) :
    captureDatetime (realCollab G env) base sid msg st
      = (.ok (), if (truthy s.order_id && ! truthy s.preferred_datetime)
            && hasDatetimeKeyword msg then
          { st with sessions := supdate st.sessions sid (setSlot .preferred_datetime (pyStrip msg)) }
        else st) := by
  rw [captureDatetime, PyM_bind_def, aliasRead_of base hs]
  try dsimp only
  by_cases h1 : (truthy s.order_id && ! truthy s.preferred_datetime) = true
  · rw [if_pos h1]
    by_cases h2 : hasDatetimeKeyword msg = true
    · rw [if_pos h2, if_pos (by rw [h1, h2]; rfl)]
      rw [PyM_bind_def, rc_update_session]
      dsimp only
      rw [PyM_pure_def, update_session, create_session_of_present hs]
    · rw [if_neg (by simpa using h2), if_neg (by rw [h1, Bool.true_and]; simpa using h2)]
      rfl
  · rw [if_neg h1, if_neg (by rw [Bool.and_eq_true]; tauto)]
    rfl

/-- Claim C7 (amended): the opportunistic capture never raises and behaves as
follows — the *stripped* message is stored as `reason_for_action` exactly
when `order_id` is truthy, `reason_for_action` is not, the raw message is
longer than 10 characters and the *stripped* message does not end in `?`;
the *stripped* message is stored as `preferred_datetime` exactly when
`order_id` is truthy, `preferred_datetime` is not, and the lowered message
contains one of the fixed keywords (weekday names, "tomorrow", "next week",
"am"/"pm", and only the two month names "december" and "january");
`order_id` and the ledgers are untouched. -/
theorem c7_slot_capture (G : GenOracles) (env : Env) (base s : Session)
    (sid msg : String) (st : PState) (hs : sfind st.sessions sid = some s) :
    ∃ (st' : PState) (s' : Session),
      captureStage (realCollab G env) base sid msg st = (.ok (), st')
      ∧ st'.ledgers = st.ledgers
      ∧ sfind st'.sessions sid = some s'
      ∧ s'.reason_for_action
          = (if (truthy s.order_id && ! truthy s.reason_for_action)
                && (decide (msg.length > 10) && ! endsQ (pyStrip msg)) then
              some (pyStrip msg) else s.reason_for_action)
      ∧ s'.preferred_datetime
          = (if (truthy s.order_id && ! truthy s.preferred_datetime)
                && hasDatetimeKeyword msg then
              some (pyStrip msg) else s.preferred_datetime)
      ∧ s'.order_id = s.order_id := by
  rw [captureStage, PyM_bind_def, captureReason_real base hs]
  by_cases h1 : ((truthy s.order_id && ! truthy s.reason_for_action)
      && (decide (msg.length > 10) && ! endsQ (pyStrip msg))) = true
  · rw [if_pos h1]
    dsimp only
    have hs1 : sfind (supdate st.sessions sid (setSlot .reason_for_action (pyStrip msg))) sid
        = some (setSlot .reason_for_action (pyStrip msg) s) := sfind_supdate_of _ hs
    rw [captureDatetime_real base hs1]
    by_cases h2 : ((truthy s.order_id && ! truthy s.preferred_datetime)
        && hasDatetimeKeyword msg) = true
    · rw [if_pos (by simpa [setSlot] using h2)]
      refine ⟨_, _, rfl, rfl, sfind_supdate_of _ hs1, ?_, ?_, ?_⟩ <;>
        simp [setSlot, h1, h2]
    · rw [if_neg (by simpa [setSlot] using h2)]
      refine ⟨_, _, rfl, rfl, hs1, ?_, ?_, ?_⟩ <;> simp [setSlot, h1, h2]
  · rw [if_neg h1]
    dsimp only
    rw [captureDatetime_real base hs]
    by_cases h2 : ((truthy s.order_id && ! truthy s.preferred_datetime)
        && hasDatetimeKeyword msg) = true
    · rw [if_pos h2]
      refine ⟨_, _, rfl, rfl, sfind_supdate_of _ hs, ?_, ?_, ?_⟩ <;>
        simp [setSlot, h1, h2]
    · rw [if_neg h2]
      exact ⟨st, s, rfl, rfl, hs, by simp [h1], by simp [h2], rfl⟩

/-- Witness for `c7_slot_capture` at a concrete input. -/
theorem c7_slot_capture_witness :
    ∃ (st' : PState) (s' : Session),
      captureStage (realCollab sampleGen sampleEnv) sampleSession "s1"
        "The speaker crackles at high volume" sampleState = (.ok (), st')
      ∧ st'.ledgers = sampleState.ledgers
      ∧ sfind st'.sessions "s1" = some s'
      ∧ s'.reason_for_action
          = (if (truthy sampleSession.order_id && ! truthy sampleSession.reason_for_action)
                && (decide (("The speaker crackles at high volume" : String).length > 10)
                    && ! endsQ (pyStrip "The speaker crackles at high volume")) then
              some (pyStrip "The speaker crackles at high volume")
            else sampleSession.reason_for_action)
      ∧ s'.preferred_datetime
          = (if (truthy sampleSession.order_id && ! truthy sampleSession.preferred_datetime)
                && hasDatetimeKeyword "The speaker crackles at high volume" then
              some (pyStrip "The speaker crackles at high volume")
            else sampleSession.preferred_datetime)
      ∧ s'.order_id = sampleSession.order_id :=
  c7_slot_capture sampleGen sampleEnv sampleSession sampleSession "s1"
    "The speaker crackles at high volume" sampleState rfl

/-- Claim C7, counterexample: a processed message of more than 10 characters
whose last character is not `?` (it is a space) with `order_id` set and
`reason_for_action` empty is nevertheless *not* stored: the code strips the
message before the question test, and the stripped form ends in `?`.  (The
code also never stores the message verbatim — it stores the stripped form.) -/
theorem c7_counterexample :
    (("Is my phone broken? " : String).length > 10)
    ∧ ("Is my phone broken? ".toList.getLast? ≠ some '?')
    ∧ truthy sampleSession.order_id = true
    ∧ sampleSession.reason_for_action = none
    ∧ sfind sampleState.sessions "s1" = some sampleSession
    ∧ ((sfind (process_message (realCollab sampleGen sampleEnv) "Is my phone broken? "
          (some "s1") "f" sampleState).2.sessions "s1").map
        (fun s => s.reason_for_action)) = some none :=
  ⟨by decide, by decide, by decide, rfl, rfl, rfl⟩

/-! ## Claim C10 -/

lemma resolveSid_ne {sid fresh : String} (h : sid ≠ "") :
    resolveSid (some sid) fresh = sid := by
  rw [resolveSid.eq_def]
  split
  · rename_i heq
    cases heq
  · rename_i heq
    cases heq
    exact absurd rfl h
  · rename_i s hns heq
    cases heq
    rfl

lemma add_hist_of_present {env : Env} {m : List (String × Session)} {sid : String}
    {s : Session} (role msg : String) (h : sfind m sid = some s) :
    add_to_conversation_history env m sid role msg
      = supdate m sid (fun s0 => { s0 with conversation_history :=
          s0.conversation_history ++ [⟨role, msg, env.nowIso⟩] }) := by
  rw [add_to_conversation_history, create_session_of_present h]

lemma stripChars_cons_not_space {c : Char} {t : List Char}
    (h : isPySpace c = false) : stripChars (c :: t) ≠ [] := by
  intro hempty
  rw [stripChars, List.dropWhile_cons, if_neg (by simp [h])] at hempty
  have := congrArg List.length hempty
  rw [List.length_reverse] at this
  have hmem : ∀ x ∈ ((c :: t).reverse.dropWhile isPySpace), True := fun _ _ => trivial
  have hnil : (c :: t).reverse.dropWhile isPySpace = [] := by
    cases hdw : (c :: t).reverse.dropWhile isPySpace with
    | nil => rfl
    | cons a b =>
      rw [hdw] at this
      simp at this
  have hall : ∀ x ∈ (c :: t).reverse, isPySpace x = true := by
    simpa [List.dropWhile_eq_nil_iff] using hnil
  have := hall c (by simp)
  rw [h] at this
  cases this

lemma pyUpper_ne_empty {s : String} (h : s ≠ "") : pyUpper s ≠ "" := by
  intro hc
  apply h
  have : (pyUpper s).data = [] := congrArg String.data hc
  have hd : s.data.map upChar = [] := this
  have : s.data = [] := by
    cases hs : s.data with
    | nil => rfl
    | cons a b => rw [hs] at hd; cases hd
  cases s
  simp_all

lemma mk_ne_empty {l : List Char} (h : l ≠ []) : String.mk l ≠ "" := by
  intro hc
  exact h (congrArg String.data hc)

/-- A successful order lookup implies the order's `order_id` field is truthy:
the match is against the uppercased non-empty extracted id. -/
lemma get_order_truthy {orders : List Order} {msg oid : String} {ord : Order}
    (hex : extract_order_id_from_message msg = some oid)
    (hord : get_order_by_id orders oid = some ord) :
    truthy ord.order_id = true := by
  rw [extract_order_id_from_message] at hex
  rcases hfind : findOrd msg.toList with - | ds
  · rw [hfind] at hex; cases hex
  · rw [hfind] at hex
    cases hex
    obtain ⟨hne, -⟩ := findOrd_some hfind
    rw [get_order_by_id] at hord
    have hpred := List.find?_some hord
    have heq : pyUpper (getD' ord.order_id)
        = pyUpper (pyStrip ("ORD" ++ String.mk ds)) := by
      simpa using hpred
    have hstrip : pyStrip ("ORD" ++ String.mk ds) ≠ "" := by
      have hdata : ("ORD" ++ String.mk ds).toList = 'O' :: 'R' :: 'D' :: ds := by
        show ("ORD" ++ String.mk ds).data = _
        rw [String.data_append]
        rfl
      rw [pyStrip, hdata]
      exact mk_ne_empty (stripChars_cons_not_space (by decide))
    have hup : pyUpper (pyStrip ("ORD" ++ String.mk ds)) ≠ "" :=
      pyUpper_ne_empty hstrip
    cases hoid : ord.order_id with
    | none =>
      rw [hoid] at heq
      exact absurd heq.symm (by simpa [getD'] using hup)
    | some w =>
      rw [hoid] at heq
      have hw : w ≠ "" := by
        intro hw0
        rw [hw0] at heq
        exact absurd heq.symm (by simpa [getD'] using hup)
      simpa [truthy] using hw

/-- With the real collaborators, the response stage is pure: it returns some
string and leaves the state untouched. -/
lemma responseStage_real (G : GenOracles) (env : Env) (s : Session)
    (i ctx msg sctx : String) (st : PState) :
    ∃ v, responseStage (realCollab G env) s i ctx msg sctx st = (.ok v, st) := by
  rw [responseStage]
  by_cases hb : flowBypassCond s i = true
  · exact ⟨bypassMessage s i, by rw [if_pos hb]; rfl⟩
  · refine ⟨verifier_agent G (responder_agent G ctx msg sctx) ctx, ?_⟩
    rw [if_neg hb, responderPath, PyM_bind_def,
      pyTry_of _ (rc_responder ctx msg sctx st)]
    exact pyTry_of _ (rc_verifier _ ctx st)

lemma pyAttempt_err {α : Type} {m : PyM α} {st st' : PState} {e : PyErr}
    (h : m st = (.error e, st')) : pyAttempt m st = (.ok (.error e), st') := by
  unfold pyAttempt
  rw [h]

lemma pyLift_bind_unit {α : Type} (r : Except PyErr α) (st : PState) :
    ∃ E : Except PyErr Unit,
      ((pyLift r : PyM α) >>= fun _ => (pure () : PyM Unit)) st = (E, st) := by
  cases r with
  | ok b =>
    refine ⟨.ok (), ?_⟩
    rw [PyM_bind_def]
    rfl
  | error e =>
    refine ⟨.error e, ?_⟩
    rw [PyM_bind_def]
    rfl

/-- With the real collaborators, the notification block is pure: whatever the
notifier does (succeed or raise), the inner handler swallows it and the state
is untouched. -/
lemma notifyStage_real (G : GenOracles) (env : Env) (a aid : String)
    (ud : UserDetails) (r : ActionResult) (st : PState) :
    notifyStage (realCollab G env) a aid ud r st = (.ok (), st) := by
  rw [notifyStage]
  have key : ∀ (m : PyM Unit), (∃ E, m st = (E, st)) →
      (pyAttempt m >>= fun _ => (pure () : PyM Unit)) st = (.ok (), st) := by
    rintro m ⟨E, hm⟩
    cases E with
    | ok u =>
      rw [PyM_bind_def, pyAttempt_of hm]
      rfl
    | error e =>
      rw [PyM_bind_def, pyAttempt_err hm]
      rfl
  apply key
  by_cases h1 : a = "initiate_refund"
  · rw [if_pos h1]
    exact pyLift_bind_unit (G.notifyRefund aid ud.product_name ud.email) st
  · rw [if_neg h1]
    by_cases h2 : a = "initiate_replacement"
    · rw [if_pos h2]
      exact pyLift_bind_unit (G.notifyReplacement aid ud.product_name ud.email) st
    · rw [if_neg h2]
      by_cases h3 : a = "book_service"
      · rw [if_pos h3]
        exact pyLift_bind_unit (G.notifyService aid r.data ud.email) st
      · rw [if_neg h3]
        exact ⟨.ok (), rfl⟩

/-- With the real collaborators, the action stage succeeds and can only touch
the ledgers and, within the session, the `action_id` / `action_type` /
`conversation_state` fields: `reason_for_action`, `preferred_datetime` and
`order_id` survive. -/
lemma actionStage_preserves (G : GenOracles) (env : Env) (base : Session)
    (sid a v : String) (st : PState) (s : Session)
    (hs : sfind st.sessions sid = some s) :
    ∃ out st', actionStage (realCollab G env) base sid a v st = (.ok out, st')
      ∧ ∃ s', sfind st'.sessions sid = some s'
        ∧ s'.reason_for_action = s.reason_for_action
        ∧ s'.preferred_datetime = s.preferred_datetime
        ∧ s'.order_id = s.order_id := by
  rw [actionStage]
  by_cases hn : a = "none"
  · exact ⟨(v, a, none), st, by rw [if_pos hn]; rfl, s, hs, rfl, rfl, rfl⟩
  · rw [if_neg hn, PyM_bind_def, pyAttempt_of (rc_check_missing_present a hs)]
    dsimp only
    by_cases hc : (checkMissingCore s a).complete = true
    · rw [if_neg (by simp [hc])]
      rw [PyM_bind_def, aliasRead_of base hs]
      dsimp only
      rw [PyM_bind_def]
      rcases he : execute_action env a (some
          { email := s.customer_email, name := s.customer_name,
            product_name := s.product_name, order_id := s.order_id,
            phone := getD' s.customer_phone }) st.ledgers with ⟨L', res⟩
      rw [pyAttempt_of (rc_execute he)]
      dsimp only
      rcases res with - | r
      · exact ⟨(v, a, none), _, rfl, s, hs, rfl, rfl, rfl⟩
      · rw [actionResultDispatch]
        by_cases hst : r.status = "success"
        · rw [if_pos hst, actionSuccessTail]
          rw [PyM_bind_def,
            notifyStage_real G env a (getD' r.action_id) _ r _]
          dsimp only
          have hs' : sfind ({ st with ledgers := L' } : PState).sessions sid = some s := hs
          rw [PyM_bind_def,
            pyAttempt_of (rc_mark_completed_present (getD' r.action_id) a hs')]
          refine ⟨(successMessage a (getD' r.action_id), a, some r), _, rfl, ?_⟩
          exact ⟨{ s with action_id := some (getD' r.action_id), action_type := some a, conversation_state := "action_executed" },
            sfind_supdate_of (fun s0 => { s0 with action_id := some (getD' r.action_id), action_type := some a, conversation_state := "action_executed" }) hs,
            rfl, rfl, rfl⟩
        · rw [if_neg hst]
          exact ⟨(v, a, some r), _, rfl, s, hs, rfl, rfl, rfl⟩
    · rw [if_pos (by simp [hc])]
      exact ⟨((checkMissingCore s a).prompt, "none", none), st, rfl, s, hs, rfl, rfl, rfl⟩

/-- Order linkage on a hit: the nine order fields are bulk-stored. -/
lemma orderStage_hit {G : GenOracles} {env : Env} {sid msg oid : String}
    {ord : Order} {st : PState} {s : Session}
    (hex : extract_order_id_from_message msg = some oid)
    (hord : get_order_by_id env.orders oid = some ord)
    (hpresent : sfind st.sessions sid = some s) :
    orderStage (realCollab G env) sid msg st
      = (.ok (), { st with sessions := supdate st.sessions sid (applyOrder ord) }) := by
  rw [orderStage]
  rw [PyM_bind_ok _ (rc_extract msg st)]
  try dsimp only
  rw [hex, orderStageLookup]
  rw [PyM_bind_ok _ (rc_get_order oid st)]
  try dsimp only
  rw [hord, orderStageStore]
  rw [PyM_bind_ok _ (rc_update_bulk sid ord st)]
  try dsimp only
  rw [PyM_pure_def, update_session_bulk, create_session_of_present hpresent]

/-- The pre-stage on a fresh session whose first message carries a resolvable
order id and passes the reason-capture test: afterwards the session holds the
stripped message as its reason. -/
lemma preStage_fresh_order (G : GenOracles) (env : Env) (sid msg : String)
    (st : PState) (oid : String) (ord : Order)
    (hfresh : sfind st.sessions sid = none)
    (hex : extract_order_id_from_message msg = some oid)
    (hord : get_order_by_id env.orders oid = some ord)
    (hlen : msg.length > 10)
    (hq : endsQ (pyStrip msg) = false) :
    ∃ stP s4, preStage (realCollab G env) sid msg st = (.ok (freshSession env sid), stP)
      ∧ sfind stP.sessions sid = some s4
      ∧ s4.reason_for_action = some (pyStrip msg) := by
  have hf1 : sfind (st.sessions ++ [(sid, freshSession env sid)]) sid
      = some (freshSession env sid) := sfind_append_self _ hfresh
  rw [preStage]
  rw [PyM_bind_ok _ (rc_get_session_absent hfresh)]
  try dsimp only
  rw [PyM_bind_ok _ (rc_add_history sid "user" msg _)]
  try dsimp only
  have hf2 : sfind (add_to_conversation_history env
      (st.sessions ++ [(sid, freshSession env sid)]) sid "user" msg) sid
      = some { freshSession env sid with conversation_history :=
          (freshSession env sid).conversation_history ++ [⟨"user", msg, env.nowIso⟩] } := by
    rw [add_hist_of_present "user" msg hf1]
    exact sfind_supdate_of _ hf1
  rw [PyM_bind_ok _ (orderStage_hit hex hord hf2)]
  try dsimp only
  rw [requireSession]
  rw [PyM_bind_ok _ (PyM_pure_def (freshSession env sid) _)]
  try dsimp only
  have hf3 : sfind (supdate (add_to_conversation_history env
      (st.sessions ++ [(sid, freshSession env sid)]) sid "user" msg) sid
      (applyOrder ord)) sid
      = some (applyOrder ord { freshSession env sid with conversation_history :=
          (freshSession env sid).conversation_history ++ [⟨"user", msg, env.nowIso⟩] }) :=
    sfind_supdate_of _ hf2
  obtain ⟨st4, s4, hcap, -, hfind4, hreason4, -, -⟩ :=
    c7_slot_capture G env (freshSession env sid) _ sid msg
      ⟨supdate (add_to_conversation_history env (st.sessions ++ [(sid, freshSession env sid)]) sid "user" msg) sid (applyOrder ord), st.ledgers⟩ hf3
  have hs4reason : s4.reason_for_action = some (pyStrip msg) := by
    rw [hreason4, if_pos]
    rw [Bool.and_eq_true, Bool.and_eq_true, Bool.and_eq_true]
    refine ⟨⟨?_, ?_⟩, ?_, ?_⟩
    · show truthy (applyOrder ord _).order_id = true
      exact get_order_truthy hex hord
    · show (! truthy (applyOrder ord _).reason_for_action) = true
      rfl
    · simpa using hlen
    · rw [hq]
      rfl
  rw [PyM_bind_ok _ hcap]
  try dsimp only
  exact ⟨st4, s4, rfl, hfind4, hs4reason⟩

/-- With the real collaborators, the generative stage is pure. -/
lemma genStage_real (G : GenOracles) (env : Env) (base : Session)
    (sid msg : String) (st : PState) (s : Session)
    (hs : sfind st.sessions sid = some s) :
    ∃ icv, genStage (realCollab G env) base sid msg st = (.ok icv, st) := by
  obtain ⟨ctx0, hctx⟩ := rc_get_context_present G env hs
  rw [genStage]
  rw [PyM_bind_ok _ hctx]
  try dsimp only
  rw [PyM_bind_ok _ (pyTry_of _ (rc_intent msg _))]
  try dsimp only
  rw [PyM_bind_ok _ (pyTry_of _ (rc_retrieval msg _))]
  try dsimp only
  rw [PyM_bind_ok _ (aliasRead_of base hs)]
  try dsimp only
  obtain ⟨v0, hresp⟩ := responseStage_real G env s (intent_agent G.model msg)
    (retrieval_agent G msg) msg ctx0 st
  rw [PyM_bind_ok _ hresp]
  exact ⟨_, rfl⟩

/-- With the real collaborators, the confirmation stage is pure. -/
lemma confirmStage_real (G : GenOracles) (env : Env) (a : String) (st : PState) :
    ∃ cv, confirmStage (realCollab G env) a st = (.ok cv, st) := by
  rw [confirmStage]
  by_cases hn : a = "none"
  · exact ⟨none, by rw [if_neg (by simp [hn])]; rfl⟩
  · exact ⟨action_confirmation_agent G.model a,
      by rw [if_pos hn]; exact pyTry_of _ (rc_confirmation a st)⟩

/-- Claim C10, counterexample: a fresh session's first message that carries a
recognized order id resolving to an existing order, is longer than 10
characters and whose last character is not `?` (it is a space) does *not*
get captured as `reason_for_action`: the code tests the stripped message,
which ends in `?`. -/
theorem c10_counterexample :
    extract_order_id_from_message "ORD201 arrived broken? " = some "ORD201"
    ∧ get_order_by_id sampleEnv.orders "ORD201" = some sampleOrder
    ∧ (("ORD201 arrived broken? " : String).length > 10)
    ∧ ("ORD201 arrived broken? ".toList.getLast? ≠ some '?')
    ∧ sfind emptyState.sessions "snew" = none
    ∧ ((sfind (process_message (realCollab sampleGen sampleEnv)
          "ORD201 arrived broken? " (some "snew") "f" emptyState).2.sessions
          "snew").map (fun s => s.reason_for_action)) = some none :=
  ⟨rfl, rfl, by decide, by decide, rfl, rfl⟩

/-- Claim C10 (amended): for a fresh session whose first message contains a
recognized order identifier resolving to an existing order, if that message
is longer than 10 characters and its *stripped* form does not end in `?`,
then after processing that single message the session's `reason_for_action`
is exactly the stripped message — the order-bearing message itself is
captured as the reason, whatever the generative collaborators answer and
whether or not an action executes. -/
theorem c10_order_message_captured_as_reason (G : GenOracles) (env : Env)
    (msg sid fresh : String) (st : PState) (oid : String) (ord : Order)
    (hsid : sid ≠ "")
    (hfresh : sfind st.sessions sid = none)
    (hex : extract_order_id_from_message msg = some oid)
    (hord : get_order_by_id env.orders oid = some ord)
    (hlen : msg.length > 10)
    (hq : endsQ (pyStrip msg) = false) :
    ((sfind (process_message (realCollab G env) msg (some sid) fresh st).2.sessions
      sid).map (fun s => s.reason_for_action)) = some (some (pyStrip msg)) := by
  obtain ⟨stP, s4, hpre, hfind4, hreason⟩ :=
    preStage_fresh_order G env sid msg st oid ord hfresh hex hord hlen hq
  rw [process_message, resolveSid_ne hsid, processBody]
  rw [PyM_bind_ok _ hpre]
  try dsimp only
  obtain ⟨icv, hgen⟩ := genStage_real G env (freshSession env sid) sid msg stP s4 hfind4
  rw [PyM_bind_ok _ hgen]
  try dsimp only
  obtain ⟨cv, hcv⟩ := confirmStage_real G env (action_agent icv.1 icv.2.2) stP
  rw [PyM_bind_ok _ hcv]
  try dsimp only
  obtain ⟨out, st5, hact, s5, hfind5, hreason5, -, -⟩ :=
    actionStage_preserves G env (freshSession env sid) sid
      (action_agent icv.1 icv.2.2) icv.2.2 stP s4 hfind4
  rw [PyM_bind_ok _ hact]
  try dsimp only
  rw [PyM_bind_ok _ (rc_add_history sid "assistant" out.1 _)]
  try dsimp only
  try rw [PyM_pure_def]
  try dsimp only
  rw [add_hist_of_present "assistant" out.1 hfind5]
  rw [sfind_supdate_of _ hfind5]
  show some _ = _
  rw [Option.some.injEq]
  show s5.reason_for_action = some (pyStrip msg)
  rw [hreason5, hreason]

/-- Witness for `c10_order_message_captured_as_reason` at a concrete input. -/
theorem c10_order_message_captured_as_reason_witness :
    ((sfind (process_message (realCollab sampleGen sampleEnv)
        "My order is ORD201 and it broke" (some "snew") "f" emptyState).2.sessions
      "snew").map (fun s => s.reason_for_action))
      = some (some (pyStrip "My order is ORD201 and it broke")) :=
  c10_order_message_captured_as_reason sampleGen sampleEnv
    "My order is ORD201 and it broke" "snew" "f" emptyState "ORD201" sampleOrder
    (by decide) rfl rfl rfl (by decide) (by decide)

end Aura
